import Mathlib

/-!
Verification of the grid shortest-path engine of day15.rs
(lowest_total_risk and lowest_total_risk_quintupled on a Board).

The closures of the Rust source (width, height, is_oob, at, cost_to,
the successor list, the heuristic and the success test) are embedded as
executable Lean functions.  The call into the external pathfinding
crate is modelled from the contract of that crate: astar returns the minimum
total edge cost of a path from the start to a node satisfying the
success predicate, or fails when no such path exists.  That contract
requires a heuristic that never overestimates, which the source
heuristic meets (up to a harmless uniform shift) only on boards whose
cells are all at least 1, so the search loop of the crate is also
modelled operationally (astarLoop) to settle the remaining boards.
Machine integers (i32) are modelled as Int; u8 cell values as Nat.
-/

namespace Day15

/-- A grid coordinate, as the (x, y) pair of i32 used by the source. -/
abbrev State := ℤ × ℤ

/-- The Board struct of the source: rows of u8 cell values. -/
structure Board where
  positions : List (List ℕ)
deriving DecidableEq

/-- Source line 24: width of the board, length of row 0.
For an empty board the source indexing panics; the panic case is
handled separately by LowestRiskOutcome below. -/
def width (b : Board) : ℤ := ((b.positions.headD []).length : ℤ)

/-- Source line 26: height of the board. -/
def height (b : Board) : ℤ := (b.positions.length : ℤ)

/-- Source line 28: the out-of-bounds test. -/
def is_oob (b : Board) (x y : ℤ) : Bool :=
  x < 0 || x ≥ width b || y < 0 || y ≥ height b

/-- Source line 30: cell value at (x, y); the source indexes the
vectors directly (it panics out of range, which never happens behind
the is_oob guard on a rectangular board). -/
def at_ (b : Board) (x y : ℤ) : ℤ :=
  (((b.positions.getD y.toNat []).getD x.toNat 0 : ℕ) : ℤ)

/-- Source lines 32-37: cost of entering (x, y); 999 out of bounds. -/
def cost_to (b : Board) (x y : ℤ) : ℤ :=
  if is_oob b x y then 999 else at_ b x y

/-- Source line 41: the four candidate coordinates, in source order. -/
def step (p : State) : List State :=
  [(p.1, p.2 - 1), (p.1 + 1, p.2), (p.1, p.2 + 1), (p.1 - 1, p.2)]

/-- Source line 41: the successor list handed to astar, each candidate
paired with its cost_to value (out-of-bounds candidates included, at
cost 999). -/
def successors (b : Board) (p : State) : List (State × ℤ) :=
  (step p).map (fun q => (q, cost_to b q.1 q.2))

/-- Source line 42: the heuristic handed to astar. -/
def heuristic (b : Board) (x y : ℤ) : ℤ :=
  (height b - y) + (width b - x)

/-- Source line 43: the success test; the goal coordinate. -/
def goal (b : Board) : State := (width b - 1, height b - 1)

/-- Source line 50: width of the logically quintupled board. -/
def width5 (b : Board) : ℤ := ((b.positions.headD []).length * 5 : ℕ)

/-- Source line 52: height of the quintupled board. -/
def height5 (b : Board) : ℤ := (b.positions.length * 5 : ℕ)

/-- Source line 54: the out-of-bounds test of the quintupled search. -/
def is_oob5 (b : Board) (x y : ℤ) : Bool :=
  x < 0 || x ≥ width5 b || y < 0 || y ≥ height5 b

/-- Source lines 56-73: effective cell value in the tiled space.
Division and remainder are only reached with 0 ≤ x and 0 ≤ y (behind
the is_oob5 guard), where the i32 semantics and Int semantics agree. -/
def at5_ (b : Board) (x y : ℤ) : ℤ :=
  let base_width : ℤ := ((b.positions.headD []).length : ℤ)
  let base_height : ℤ := (b.positions.length : ℤ)
  let tile_x := x / base_width
  let tile_y := y / base_height
  let base_x := x % base_width
  let base_y := y % base_height
  let base_risk : ℤ :=
    (((b.positions.getD base_y.toNat []).getD base_x.toNat 0 : ℕ) : ℤ)
  let new_risk := base_risk + tile_x + tile_y
  if new_risk > 9 then new_risk - 9 else new_risk

/-- Source lines 75-81: cost of entering (x, y) in the tiled space. -/
def cost_to5 (b : Board) (x y : ℤ) : ℤ :=
  if is_oob5 b x y then 999 else at5_ b x y

/-- Source line 85: successor list of the quintupled search. -/
def successors5 (b : Board) (p : State) : List (State × ℤ) :=
  (step p).map (fun q => (q, cost_to5 b q.1 q.2))

/-- Source line 86: heuristic of the quintupled search. -/
def heuristic5 (b : Board) (x y : ℤ) : ℤ :=
  (height5 b - y) + (width5 b - x)

/-- Source line 87: goal of the quintupled search. -/
def goal5 (b : Board) : State := (width5 b - 1, height5 b - 1)

/-! ## Operational model of the external astar search -/

/-- A heap entry of the search: estimated cost, cost so far, node. -/
abbrev Holder := ℤ × ℤ × State

/-- Modelled from the implementation of the external pathfinding
crate: its heap yields an entry with the least estimated cost and, on
ties, the larger cost so far; among entries equal in both the crate
order is unspecified and this model keeps the earliest. -/
def popMin : List Holder → Option (Holder × List Holder)
  | [] => none
  | x :: xs =>
    match popMin xs with
    | none => some (x, [])
    | some (m, rest) =>
      if m.1 < x.1 ∨ (m.1 = x.1 ∧ x.2.1 < m.2.1) then some (m, x :: rest)
      else some (x, xs)

/-- Best known cost so far per node (the parents map of the crate). -/
def lookupG : List (State × ℤ) → State → Option ℤ
  | [], _ => none
  | e :: rest, p => if e.1 = p then some e.2 else lookupG rest p

def setG : List (State × ℤ) → State → ℤ → List (State × ℤ)
  | [], p, g => [(p, g)]
  | e :: rest, p, g => if e.1 = p then (p, g) :: rest else e :: setG rest p g

/-- Modelled from the implementation of the external pathfinding
crate, one pop per fuel unit: pop the best entry, return its cost so
far when it satisfies the success test (before the staleness test, as
in the crate), drop it when stale, otherwise relax the four
successors in order, pushing an entry whenever a strictly better cost
is found. -/
def astarLoop (succs : State → List (State × ℤ)) (h : State → ℤ)
    (isGoal : State → Bool) :
    ℕ → List Holder → List (State × ℤ) → Option ℤ
  | 0, _, _ => none
  | fuel + 1, waiting, best =>
    match popMin waiting with
    | none => none
    | some ((_, g, node), rest) =>
      if isGoal node then some g
      else
        match lookupG best node with
        | none => none
        | some c =>
          if c < g then astarLoop succs h isGoal fuel rest best
          else
            let st := (succs node).foldl
              (fun (acc : List Holder × List (State × ℤ)) sc =>
                let ng := g + sc.2
                match lookupG acc.2 sc.1 with
                | none =>
                  (acc.1 ++ [(ng + h sc.1, ng, sc.1)],
                    setG acc.2 sc.1 ng)
                | some cp =>
                  if ng < cp then
                    (acc.1 ++ [(ng + h sc.1, ng, sc.1)],
                      setG acc.2 sc.1 ng)
                  else acc)
              (rest, best)
            astarLoop succs h isGoal fuel st.1 st.2

/-- The operational run of lowest_total_risk: the astar call of
source lines 39-46 with the successor list, heuristic and success
test of the source, started like the crate from a single entry for
the node (0,0) with cost 0. -/
def lowest_total_risk_run (b : Board) (fuel : ℕ) : Option ℤ :=
  astarLoop (successors b) (fun p => heuristic b p.1 p.2)
    (fun p => decide (p.1 = width b - 1) && decide (p.2 = height b - 1))
    fuel [(0, 0, (0, 0))] [((0, 0), 0)]

/-! ## Walks in the implicit graph

The graph handed to astar has every coordinate of the plane as a node;
the cost of an edge depends only on the entered node.  A walk is the
list of entered nodes; the start node is never entered, so the start
cell is never charged. -/

/-- The walk predicate: l is the list of nodes entered in order when
walking from s to t, each step moving to one of the four source-order
candidates. -/
def IsWalk (s : State) (l : List State) (t : State) : Prop :=
  match l with
  | [] => s = t
  | q :: l' => q ∈ step s ∧ IsWalk q l' t

instance instDecIsWalk : (s : State) → (l : List State) → (t : State) →
    Decidable (IsWalk s l t)
  | _, [], _ => inferInstanceAs (Decidable (_ = _))
  | s, q :: l', t =>
    @instDecidableAnd (q ∈ step s) (IsWalk q l' t) _ (instDecIsWalk q l' t)

/-- Total cost of a walk: sum of the edge costs of the entered nodes. -/
def walkCost (c : State → ℤ) (l : List State) : ℤ :=
  (l.map c).sum

/-- n is the cost of some walk from s to t. -/
def ReachCost (c : State → ℤ) (s t : State) (n : ℤ) : Prop :=
  ∃ l, IsWalk s l t ∧ walkCost c l = n

/-- n is the minimum walk cost from s to t. -/
def IsMinCost (c : State → ℤ) (s t : State) (n : ℤ) : Prop :=
  ReachCost c s t n ∧ ∀ m, ReachCost c s t m → n ≤ m

/-- The per-entered-node cost function of the plain search. -/
def costFn (b : Board) (p : State) : ℤ := cost_to b p.1 p.2

/-- The per-entered-node cost function of the quintupled search. -/
def costFn5 (b : Board) (p : State) : ℤ := cost_to5 b p.1 p.2

/-- Modelled from the contract of the external pathfinding crate:
the astar call of lowest_total_risk (source lines 39-46) returns the
minimum total edge cost among paths from (0,0) to the success node,
provided the heuristic never overestimates the remaining cost.  The
source heuristic is the Manhattan distance plus a uniform 2: on
boards whose cells are all at least 1 the Manhattan part never
overestimates and the uniform shift leaves the pop order unchanged,
so the returned value is this minimum; on boards with 0-valued cells
the run can return more (see lowest_total_risk_run). -/
def IsLowestRisk (b : Board) (n : ℤ) : Prop :=
  IsMinCost (costFn b) (0, 0) (goal b) n

/-- Modelled from the contract of the external pathfinding crate:
the returned value of lowest_total_risk_quintupled (source lines
83-90), under the same heuristic precondition as IsLowestRisk. -/
def IsLowestRiskQ (b : Board) (n : ℤ) : Prop :=
  IsMinCost (costFn5 b) (0, 0) (goal5 b) n

/-! ## Well-formedness and cell bounds -/

/-- A non-empty rectangular board with at least one column. -/
def WF (b : Board) : Prop :=
  b.positions ≠ [] ∧ (b.positions.headD []).length ≠ 0 ∧
    ∀ row ∈ b.positions, row.length = (b.positions.headD []).length

instance : DecidablePred WF := fun b => by
  unfold WF; infer_instance

/-- Every cell value is at most B. -/
def CellsLE (b : Board) (B : ℕ) : Prop :=
  ∀ row ∈ b.positions, ∀ v ∈ row, v ≤ B

instance : ∀ b B, Decidable (CellsLE b B) := fun b B => by
  unfold CellsLE; infer_instance

/-- Every cell value is at least 1. -/
def CellsPos (b : Board) : Prop :=
  ∀ row ∈ b.positions, ∀ v ∈ row, 1 ≤ v

instance : DecidablePred CellsPos := fun b => by
  unfold CellsPos; infer_instance

/-! ## Basic walk lemmas -/

theorem walkCost_nil (c : State → ℤ) : walkCost c [] = 0 := rfl

theorem walkCost_cons (c : State → ℤ) (q : State) (l : List State) :
    walkCost c (q :: l) = c q + walkCost c l := by
  simp [walkCost]

theorem walkCost_append (c : State → ℤ) (l₁ l₂ : List State) :
    walkCost c (l₁ ++ l₂) = walkCost c l₁ + walkCost c l₂ := by
  simp [walkCost]

theorem walkCost_nonneg {c : State → ℤ} (hc : ∀ p, 0 ≤ c p)
    (l : List State) : 0 ≤ walkCost c l := by
  refine List.sum_nonneg ?_
  intro x hx
  obtain ⟨p, _, rfl⟩ := List.mem_map.mp hx
  exact hc p

theorem walkCost_mono {c c' : State → ℤ} (h : ∀ p, c p ≤ c' p)
    (l : List State) : walkCost c l ≤ walkCost c' l := by
  induction l with
  | nil => simp [walkCost]
  | cons q l ih =>
    rw [walkCost_cons, walkCost_cons]
    exact add_le_add (h q) ih

theorem IsWalk.append {s m t : State} {l₁ l₂ : List State}
    (h₁ : IsWalk s l₁ m) (h₂ : IsWalk m l₂ t) : IsWalk s (l₁ ++ l₂) t := by
  induction l₁ generalizing s with
  | nil =>
    simp only [IsWalk] at h₁
    simpa [h₁] using h₂
  | cons q l ih =>
    obtain ⟨hadj, hw⟩ := h₁
    exact ⟨hadj, ih hw⟩

/-- A potential function D that satisfies the relaxed triangle
inequality on every edge bounds every walk cost from below. -/
theorem potential_le (c D : State → ℤ)
    (hD : ∀ p q, q ∈ step p → D q ≤ D p + c q) :
    ∀ (l : List State) (s t : State), IsWalk s l t →
      D t ≤ D s + walkCost c l := by
  intro l
  induction l with
  | nil =>
    intro s t h
    simp only [IsWalk] at h
    simp [h, walkCost]
  | cons q l ih =>
    intro s t h
    obtain ⟨hadj, hw⟩ := h
    have h1 := ih q t hw
    have h2 := hD s q hadj
    rw [walkCost_cons]
    linarith

/-! ## Distance-table certificates

A lower bound on every walk cost to the goal is certified by a table
of per-cell potentials, stored as a row-major table of naturals; every
out-of-bounds coordinate carries potential 999. -/

/-- Table potential: listed value on in-bounds cells, 999 outside. -/
def tabD (W H : ℤ) (T : List (List ℕ)) (p : State) : ℤ :=
  if p.1 < 0 ∨ W ≤ p.1 ∨ p.2 < 0 ∨ H ≤ p.2 then 999
  else (((T.getD p.2.toNat []).getD p.1.toNat 0 : ℕ) : ℤ)

theorem tabD_nonneg (W H : ℤ) (T : List (List ℕ)) (p : State) :
    0 ≤ tabD W H T p := by
  unfold tabD
  split
  · norm_num
  · positivity

/-- Edge feasibility check of one table row against a cost function;
checked row by row to keep each kernel evaluation small. -/
def certRow (W H : ℤ) (c : State → ℤ) (T : List (List ℕ)) (j : ℕ) :
    Bool :=
  (List.range W.toNat).all fun i =>
    let u : State := ((i : ℤ), (j : ℤ))
    decide (tabD W H T u ≤ 999) &&
      (step u).all fun q => decide (tabD W H T q ≤ tabD W H T u + c q)

theorem certCheck_sound {W H : ℤ} {c : State → ℤ} {T : List (List ℕ)}
    (hc999 : ∀ p : State, (p.1 < 0 ∨ W ≤ p.1 ∨ p.2 < 0 ∨ H ≤ p.2) →
      c p = 999)
    (hc0 : ∀ p, 0 ≤ c p)
    (hchk : ∀ j, j < H.toNat → certRow W H c T j = true) :
    ∀ p q, q ∈ step p → tabD W H T q ≤ tabD W H T p + c q := by
  intro p q hq
  have hcell : ∀ u : State,
      ¬ (u.1 < 0 ∨ W ≤ u.1 ∨ u.2 < 0 ∨ H ≤ u.2) →
      tabD W H T u ≤ 999 ∧
        ∀ r ∈ step u, tabD W H T r ≤ tabD W H T u + c r := by
    intro u hu
    push_neg at hu
    obtain ⟨hx0, hxW, hy0, hyH⟩ := hu
    have hi : u.1.toNat ∈ List.range W.toNat := by
      rw [List.mem_range]
      omega
    have h1 : certRow W H c T u.2.toNat = true := hchk _ (by omega)
    unfold certRow at h1
    have h2 := List.all_eq_true.mp h1 _ hi
    have hu2 : ((u.1.toNat : ℤ), (u.2.toNat : ℤ)) = u := by
      have : (u.1.toNat : ℤ) = u.1 := Int.toNat_of_nonneg hx0
      have : (u.2.toNat : ℤ) = u.2 := Int.toNat_of_nonneg hy0
      simp_all
    rw [hu2] at h2
    simp only [Bool.and_eq_true, decide_eq_true_eq, List.all_eq_true] at h2
    exact ⟨h2.1, fun r hr => h2.2 r hr⟩
  by_cases hqo : q.1 < 0 ∨ W ≤ q.1 ∨ q.2 < 0 ∨ H ≤ q.2
  · -- entering an out-of-bounds node: its potential is 999, its cost 999
    have hq999 : tabD W H T q = 999 := by
      unfold tabD
      rw [if_pos hqo]
    rw [hq999, hc999 q hqo]
    have := tabD_nonneg W H T p
    linarith
  · by_cases hpo : p.1 < 0 ∨ W ≤ p.1 ∨ p.2 < 0 ∨ H ≤ p.2
    · -- leaving an out-of-bounds node: the target potential is at most 999
      have hp999 : tabD W H T p = 999 := by
        unfold tabD
        rw [if_pos hpo]
      have hqle := (hcell q hqo).1
      have := hc0 q
      rw [hp999]
      linarith
    · exact (hcell p hpo).2 q hq

/-- From a feasible table, a closed lower bound on every walk cost. -/
theorem cert_lower {W H : ℤ} {c : State → ℤ} {T : List (List ℕ)}
    {target : State} {K : ℤ}
    (hc999 : ∀ p : State, (p.1 < 0 ∨ W ≤ p.1 ∨ p.2 < 0 ∨ H ≤ p.2) →
      c p = 999)
    (hc0 : ∀ p, 0 ≤ c p)
    (hchk : ∀ j, j < H.toNat → certRow W H c T j = true)
    (h0 : tabD W H T (0, 0) = 0)
    (hK : K ≤ tabD W H T target) :
    ∀ m, ReachCost c (0, 0) target m → K ≤ m := by
  rintro m ⟨l, hw, rfl⟩
  have := potential_le c (tabD W H T)
    (certCheck_sound hc999 hc0 hchk) l (0, 0) target hw
  rw [h0] at this
  linarith

/-! ## Bridging lemmas for the source cost functions -/

theorem is_oob_eq_true {b : Board} {x y : ℤ}
    (h : x < 0 ∨ width b ≤ x ∨ y < 0 ∨ height b ≤ y) :
    is_oob b x y = true := by
  simp only [is_oob, Bool.or_eq_true, decide_eq_true_eq, ge_iff_le]
  tauto

theorem is_oob_eq_false_iff {b : Board} {x y : ℤ} :
    is_oob b x y = false ↔
      0 ≤ x ∧ x < width b ∧ 0 ≤ y ∧ y < height b := by
  simp only [is_oob, Bool.or_eq_false_iff, decide_eq_false_iff_not,
    not_lt, not_le, ge_iff_le]
  omega

theorem is_oob5_eq_true {b : Board} {x y : ℤ}
    (h : x < 0 ∨ width5 b ≤ x ∨ y < 0 ∨ height5 b ≤ y) :
    is_oob5 b x y = true := by
  simp only [is_oob5, Bool.or_eq_true, decide_eq_true_eq, ge_iff_le]
  tauto

theorem is_oob5_eq_false_iff {b : Board} {x y : ℤ} :
    is_oob5 b x y = false ↔
      0 ≤ x ∧ x < width5 b ∧ 0 ≤ y ∧ y < height5 b := by
  simp only [is_oob5, Bool.or_eq_false_iff, decide_eq_false_iff_not,
    not_lt, not_le, ge_iff_le]
  omega

theorem at_nonneg (b : Board) (x y : ℤ) : 0 ≤ at_ b x y := by
  unfold at_
  positivity

theorem costFn_oob (b : Board) (p : State)
    (h : p.1 < 0 ∨ width b ≤ p.1 ∨ p.2 < 0 ∨ height b ≤ p.2) :
    costFn b p = 999 := by
  simp [costFn, cost_to, is_oob_eq_true h]

theorem costFn_nonneg (b : Board) (p : State) : 0 ≤ costFn b p := by
  unfold costFn cost_to
  split
  · norm_num
  · exact at_nonneg b p.1 p.2

theorem at5_nonneg (b : Board) {x y : ℤ} (hx : 0 ≤ x) (hy : 0 ≤ y) :
    0 ≤ at5_ b x y := by
  unfold at5_
  have h1 : (0:ℤ) ≤ x / ((b.positions.headD []).length : ℤ) :=
    Int.ediv_nonneg hx (by positivity)
  have h2 : (0:ℤ) ≤ y / ((b.positions.length : ℕ) : ℤ) :=
    Int.ediv_nonneg hy (by positivity)
  have h3 : (0:ℤ) ≤
      (((b.positions.getD (y % (b.positions.length : ℤ)).toNat []).getD
        (x % ((b.positions.headD []).length : ℤ)).toNat 0 : ℕ) : ℤ) := by
    positivity
  dsimp only
  split <;> omega

theorem costFn5_oob (b : Board) (p : State)
    (h : p.1 < 0 ∨ width5 b ≤ p.1 ∨ p.2 < 0 ∨ height5 b ≤ p.2) :
    costFn5 b p = 999 := by
  simp [costFn5, cost_to5, is_oob5_eq_true h]

theorem costFn5_nonneg (b : Board) (p : State) : 0 ≤ costFn5 b p := by
  unfold costFn5 cost_to5
  rcases hob : is_oob5 b p.1 p.2 with _ | _
  · rw [if_neg (by simp [hob])]
    obtain ⟨hx, _, hy, _⟩ := is_oob5_eq_false_iff.mp hob
    exact at5_nonneg b hx hy
  · rw [if_pos (by simp)]
    norm_num

/-- The ten-by-ten example grid of the source test (spec section 8). -/
def exampleBoard : Board :=
  ⟨[[1, 1, 6, 3, 7, 5, 1, 7, 4, 2],
   [1, 3, 8, 1, 3, 7, 3, 6, 7, 2],
   [2, 1, 3, 6, 5, 1, 1, 3, 2, 8],
   [3, 6, 9, 4, 9, 3, 1, 5, 6, 9],
   [7, 4, 6, 3, 4, 1, 7, 1, 1, 1],
   [1, 3, 1, 9, 1, 2, 8, 1, 3, 7],
   [1, 3, 5, 9, 9, 1, 2, 4, 2, 1],
   [3, 1, 2, 5, 4, 2, 1, 6, 3, 9],
   [1, 2, 9, 3, 1, 3, 8, 5, 2, 1],
   [2, 3, 1, 1, 9, 4, 4, 5, 8, 1]]⟩

/-- An optimal walk (entered cells) for the plain search on the
example board. -/
def exPath1 : List State :=
  [(0, 1), (0, 2), (1, 2), (2, 2), (3, 2), (4, 2), (5, 2), (6, 2), (6, 3), (7, 3), (7, 4), (7, 5), (8, 5), (8, 6), (8, 7), (8, 8), (9, 8), (9, 9)]

/-- Table of shortest distances from the origin on the example board,
used as the lower-bound certificate of the plain search. -/
def exTable1 : List (List ℕ) :=
  [[0, 1, 7, 10, 17, 22, 23, 30, 34, 36],
   [1, 4, 12, 11, 14, 21, 23, 29, 32, 34],
   [3, 4, 7, 13, 18, 19, 20, 23, 25, 33],
   [6, 10, 16, 17, 26, 22, 21, 26, 31, 38],
   [13, 14, 20, 20, 24, 23, 28, 27, 28, 29],
   [14, 17, 18, 27, 25, 25, 33, 28, 31, 36],
   [15, 18, 23, 32, 34, 26, 28, 32, 33, 34],
   [18, 19, 21, 26, 30, 28, 29, 35, 36, 43],
   [19, 21, 30, 29, 30, 31, 37, 40, 38, 39],
   [21, 24, 25, 26, 35, 35, 39, 44, 46, 40]]

/-- An optimal walk (entered cells) for the quintupled search on the
example board. -/
def exPath5 : List State :=
  [(0, 1), (0, 2), (0, 3), (0, 4), (0, 5), (0, 6), (0, 7), (0, 8), (0, 9), (0, 10), (0, 11), (0, 12), (1, 12), (2, 12), (2, 13), (2, 14), (2, 15), (3, 15), (3, 16), (4, 16), (5, 16), (6, 16), (7, 16), (8, 16), (9, 16), (9, 17), (9, 18), (10, 18), (11, 18), (12, 18), (12, 19), (13, 19), (14, 19), (14, 20), (14, 21), (15, 21), (15, 22), (16, 22), (16, 23), (16, 24), (16, 25), (17, 25), (18, 25), (19, 25), (19, 26), (19, 27), (19, 28), (20, 28), (21, 28), (22, 28), (22, 29), (23, 29), (24, 29), (24, 30), (25, 30), (26, 30), (27, 30), (27, 31), (27, 32), (27, 33), (28, 33), (29, 33), (29, 34), (30, 34), (31, 34), (32, 34), (32, 35), (32, 36), (33, 36), (33, 37), (34, 37), (34, 38), (34, 39), (35, 39), (36, 39), (37, 39), (37, 40), (37, 41), (37, 42), (37, 43), (38, 43), (39, 43), (40, 43), (41, 43), (41, 44), (41, 45), (41, 46), (42, 46), (42, 47), (43, 47), (44, 47), (45, 47), (45, 48), (45, 49), (46, 49), (47, 49), (48, 49), (49, 49)]

/-- Shortest-distance table of the quintupled search on the example
board. -/
def exTable5 : List (List ℕ) :=
  [[0, 1, 7, 10, 17, 22, 23, 30, 34, 36, 38, 40, 47, 51, 59, 65, 63, 71, 76, 78, 81, 84, 92, 92, 101, 108, 107, 116, 115, 109, 113, 117, 126, 127, 128, 136, 138, 139, 146, 151, 156, 161, 162, 169, 171, 180, 185, 186, 194, 198],
   [1, 4, 12, 11, 14, 21, 23, 29, 32, 34, 36, 40, 49, 51, 55, 63, 61, 68, 72, 75, 78, 83, 84, 87, 92, 101, 104, 112, 114, 105, 109, 115, 117, 121, 127, 128, 134, 143, 144, 149, 154, 161, 164, 167, 174, 176, 183, 184, 186, 192],
   [3, 4, 7, 13, 18, 19, 20, 23, 25, 33, 36, 38, 42, 49, 55, 55, 57, 61, 64, 73, 75, 78, 83, 91, 96, 96, 99, 104, 105, 101, 106, 110, 116, 125, 133, 132, 136, 142, 147, 145, 151, 155, 161, 162, 171, 176, 181, 188, 190, 191],
   [6, 10, 16, 17, 26, 22, 21, 26, 31, 38, 40, 45, 43, 48, 49, 53, 55, 61, 68, 66, 71, 79, 81, 87, 89, 93, 96, 99, 103, 100, 105, 114, 117, 124, 127, 133, 132, 140, 145, 143, 149, 150, 154, 162, 166, 173, 178, 187, 184, 188],
   [13, 14, 20, 20, 24, 23, 28, 27, 28, 29, 37, 42, 49, 49, 52, 52, 60, 61, 63, 65, 74, 79, 84, 83, 87, 88, 95, 92, 95, 98, 99, 106, 115, 121, 127, 129, 128, 132, 136, 140, 142, 150, 151, 158, 166, 171, 173, 178, 183, 188],
   [14, 17, 18, 27, 25, 25, 33, 28, 31, 36, 38, 42, 44, 45, 47, 50, 59, 59, 63, 70, 68, 73, 76, 78, 81, 85, 86, 89, 94, 103, 103, 109, 113, 116, 120, 125, 127, 131, 137, 138, 143, 150, 155, 159, 164, 170, 173, 178, 185, 187],
   [15, 18, 23, 32, 34, 26, 28, 32, 33, 34, 36, 40, 46, 46, 47, 49, 52, 57, 60, 62, 65, 70, 77, 79, 81, 84, 88, 94, 98, 101, 105, 111, 119, 119, 122, 126, 131, 138, 142, 142, 147, 154, 163, 163, 167, 172, 178, 186, 191, 192],
   [18, 19, 21, 26, 30, 28, 29, 35, 36, 43, 40, 42, 45, 51, 52, 52, 54, 61, 64, 63, 68, 71, 75, 82, 87, 88, 91, 99, 103, 103, 109, 113, 118, 126, 129, 131, 135, 144, 148, 145, 152, 157, 163, 172, 175, 178, 183, 184, 191, 195],
   [19, 21, 30, 29, 30, 31, 37, 40, 38, 39, 41, 44, 45, 49, 51, 55, 63, 67, 67, 65, 68, 72, 74, 79, 82, 87, 88, 95, 99, 102, 106, 111, 114, 120, 124, 130, 132, 140, 145, 149, 154, 160, 164, 171, 176, 183, 186, 193, 197, 200],
   [21, 24, 25, 26, 35, 35, 39, 44, 46, 40, 43, 47, 47, 49, 50, 55, 60, 66, 75, 67, 71, 76, 77, 80, 82, 88, 94, 101, 100, 103, 108, 114, 118, 122, 125, 132, 139, 147, 147, 151, 157, 164, 169, 174, 178, 186, 194, 200, 200, 205],
   [23, 25, 32, 30, 38, 41, 41, 49, 48, 43, 46, 49, 55, 54, 59, 62, 63, 72, 77, 71, 75, 79, 86, 86, 83, 91, 95, 96, 103, 108, 113, 118, 119, 126, 127, 136, 141, 143, 151, 157, 163, 169, 171, 179, 181, 182, 188, 191, 200, 207],
   [25, 29, 38, 32, 36, 44, 45, 52, 54, 46, 49, 54, 55, 57, 62, 71, 68, 76, 84, 75, 79, 85, 87, 90, 89, 90, 96, 105, 104, 109, 114, 121, 122, 127, 134, 136, 143, 144, 146, 152, 158, 166, 170, 176, 184, 185, 193, 193, 196, 203],
   [28, 30, 34, 39, 42, 44, 46, 50, 53, 55, 53, 56, 60, 65, 69, 72, 71, 76, 80, 76, 81, 85, 91, 99, 97, 94, 98, 104, 109, 111, 117, 122, 129, 128, 137, 141, 146, 151, 152, 155, 162, 168, 176, 178, 179, 185, 191, 199, 203, 207],
   [32, 37, 35, 40, 41, 45, 47, 53, 60, 56, 58, 64, 62, 68, 70, 75, 74, 81, 86, 78, 84, 93, 94, 101, 100, 100, 102, 110, 118, 114, 121, 122, 126, 134, 138, 145, 150, 159, 153, 157, 165, 167, 172, 181, 184, 192, 197, 198, 200, 205],
   [40, 42, 42, 44, 46, 47, 55, 55, 57, 58, 67, 70, 70, 73, 76, 78, 83, 84, 84, 81, 82, 89, 98, 104, 107, 104, 103, 107, 111, 115, 117, 125, 126, 133, 141, 146, 148, 153, 158, 162, 165, 174, 174, 182, 191, 197, 200, 204, 206, 211],
   [42, 46, 44, 45, 47, 50, 59, 57, 61, 66, 68, 73, 73, 75, 78, 82, 83, 86, 89, 90, 86, 92, 96, 99, 103, 108, 105, 109, 115, 116, 121, 128, 131, 135, 140, 146, 149, 154, 161, 163, 169, 177, 180, 185, 191, 198, 202, 208, 214, 214],
   [44, 48, 50, 46, 47, 49, 52, 57, 60, 62, 65, 70, 77, 77, 79, 82, 86, 92, 93, 93, 90, 96, 104, 102, 105, 109, 110, 116, 120, 120, 125, 132, 140, 139, 143, 148, 154, 162, 167, 168, 174, 182, 181, 186, 191, 197, 204, 213, 220, 220],
   [48, 50, 53, 52, 52, 52, 54, 61, 64, 63, 68, 71, 75, 82, 85, 86, 89, 97, 98, 95, 96, 100, 105, 110, 112, 114, 114, 123, 126, 123, 130, 135, 141, 148, 151, 154, 159, 160, 167, 171, 179, 185, 188, 187, 196, 203, 209, 211, 219, 224],
   [50, 53, 54, 56, 54, 56, 63, 67, 67, 65, 68, 72, 74, 79, 82, 87, 88, 95, 99, 98, 100, 105, 108, 114, 116, 120, 116, 124, 129, 127, 132, 138, 142, 149, 154, 161, 162, 169, 173, 176, 182, 189, 193, 195, 201, 209, 213, 212, 219, 225],
   [53, 57, 56, 57, 55, 60, 65, 71, 76, 67, 71, 76, 77, 80, 82, 88, 94, 101, 100, 101, 105, 111, 112, 116, 119, 126, 123, 131, 131, 131, 137, 144, 147, 152, 156, 164, 170, 178, 176, 181, 188, 196, 199, 201, 206, 215, 222, 213, 217, 223],
   [56, 59, 64, 62, 64, 67, 68, 77, 77, 71, 75, 79, 86, 86, 83, 91, 95, 96, 103, 106, 110, 115, 113, 120, 121, 130, 128, 130, 138, 137, 143, 149, 149, 157, 159, 160, 166, 169, 178, 185, 192, 199, 202, 210, 210, 212, 219, 217, 218, 226],
   [59, 64, 65, 65, 69, 76, 73, 81, 84, 75, 79, 85, 87, 90, 89, 90, 96, 105, 104, 109, 114, 121, 116, 121, 128, 130, 135, 131, 133, 139, 145, 153, 153, 159, 167, 163, 171, 171, 174, 181, 188, 197, 202, 209, 218, 216, 225, 220, 222, 230],
   [63, 66, 70, 73, 76, 79, 76, 81, 80, 76, 81, 85, 91, 99, 97, 94, 98, 104, 109, 111, 117, 122, 123, 122, 131, 135, 140, 138, 139, 142, 149, 155, 161, 161, 162, 168, 174, 179, 181, 185, 193, 200, 209, 209, 211, 218, 225, 229, 230, 235],
   [68, 74, 72, 78, 78, 83, 79, 86, 86, 78, 84, 93, 94, 101, 100, 100, 102, 110, 118, 114, 121, 122, 126, 130, 134, 141, 145, 147, 140, 144, 152, 154, 159, 168, 167, 175, 180, 180, 182, 187, 196, 199, 205, 206, 212, 221, 228, 230, 233, 239],
   [77, 80, 80, 83, 84, 86, 88, 87, 84, 81, 82, 89, 98, 104, 107, 104, 103, 107, 111, 115, 117, 125, 126, 133, 141, 146, 147, 150, 145, 149, 152, 161, 161, 169, 176, 181, 183, 186, 188, 193, 197, 198, 201, 210, 211, 218, 222, 229, 236, 243],
   [80, 85, 83, 85, 87, 90, 89, 90, 89, 90, 86, 92, 96, 99, 103, 108, 105, 109, 115, 116, 121, 128, 131, 135, 140, 146, 149, 154, 152, 151, 157, 165, 167, 172, 178, 185, 187, 192, 196, 196, 203, 207, 208, 214, 218, 226, 227, 234, 243, 247],
   [83, 88, 90, 87, 89, 92, 93, 96, 93, 93, 90, 96, 104, 102, 105, 109, 110, 116, 120, 120, 125, 132, 140, 139, 143, 148, 154, 162, 158, 156, 162, 170, 168, 173, 178, 184, 191, 200, 203, 202, 209, 216, 210, 216, 222, 229, 235, 235, 243, 250],
   [88, 91, 94, 94, 95, 96, 96, 104, 98, 95, 96, 100, 105, 110, 112, 114, 114, 123, 126, 123, 130, 135, 141, 148, 151, 154, 159, 160, 165, 160, 168, 174, 175, 174, 183, 190, 196, 198, 206, 207, 216, 223, 218, 218, 219, 227, 234, 237, 246, 252],
   [91, 95, 96, 99, 98, 101, 97, 104, 102, 98, 100, 105, 108, 114, 116, 120, 116, 124, 129, 127, 132, 138, 142, 149, 154, 161, 162, 169, 171, 165, 171, 178, 180, 182, 188, 196, 200, 199, 206, 212, 219, 227, 224, 227, 226, 235, 239, 238, 246, 253],
   [95, 100, 99, 102, 100, 106, 103, 109, 102, 101, 105, 111, 112, 116, 119, 126, 123, 131, 131, 131, 137, 144, 147, 152, 156, 164, 170, 178, 173, 170, 177, 185, 186, 188, 193, 202, 209, 200, 204, 210, 218, 227, 231, 234, 232, 233, 234, 236, 241, 248],
   [99, 103, 108, 107, 101, 109, 107, 108, 109, 106, 110, 115, 113, 120, 121, 130, 128, 130, 138, 137, 143, 149, 149, 157, 159, 160, 166, 169, 178, 177, 184, 191, 189, 197, 197, 199, 206, 204, 205, 213, 221, 229, 233, 234, 237, 236, 242, 241, 243, 252],
   [103, 109, 110, 111, 107, 108, 113, 117, 110, 111, 115, 122, 116, 121, 128, 130, 135, 131, 133, 139, 145, 153, 153, 159, 167, 163, 171, 171, 174, 181, 188, 197, 194, 201, 206, 203, 212, 207, 209, 217, 225, 226, 232, 240, 238, 241, 242, 245, 248, 257],
   [108, 112, 116, 120, 115, 112, 116, 121, 115, 113, 119, 124, 123, 122, 131, 135, 140, 138, 139, 142, 149, 155, 161, 161, 162, 168, 174, 179, 181, 185, 193, 200, 203, 204, 206, 210, 217, 216, 217, 222, 231, 234, 233, 237, 240, 248, 250, 246, 255, 261],
   [114, 121, 119, 125, 118, 118, 120, 128, 124, 116, 123, 124, 127, 130, 134, 141, 145, 147, 140, 144, 152, 154, 159, 168, 167, 175, 180, 180, 182, 187, 196, 199, 205, 205, 211, 219, 224, 218, 220, 226, 227, 231, 238, 239, 246, 247, 255, 249, 253, 260],
   [115, 122, 128, 131, 125, 122, 121, 125, 124, 120, 122, 130, 128, 135, 142, 146, 147, 150, 145, 149, 152, 161, 161, 169, 176, 181, 183, 186, 188, 193, 197, 198, 201, 210, 211, 218, 222, 225, 227, 233, 232, 233, 237, 238, 240, 248, 253, 257, 261, 268],
   [119, 125, 129, 132, 129, 127, 123, 127, 127, 121, 126, 133, 133, 137, 142, 148, 150, 155, 152, 151, 157, 165, 167, 172, 178, 185, 187, 192, 196, 196, 203, 207, 208, 214, 218, 226, 227, 232, 236, 237, 240, 234, 242, 245, 248, 257, 259, 265, 262, 267],
   [123, 129, 137, 135, 132, 131, 128, 134, 130, 125, 130, 137, 142, 141, 145, 150, 156, 163, 158, 156, 162, 170, 168, 173, 178, 184, 191, 200, 203, 202, 209, 216, 210, 216, 222, 229, 235, 233, 241, 244, 243, 235, 238, 245, 252, 260, 268, 267, 271, 275],
   [129, 133, 138, 143, 139, 136, 132, 141, 134, 128, 135, 140, 146, 150, 153, 156, 161, 162, 165, 160, 168, 174, 175, 174, 183, 190, 196, 198, 206, 207, 216, 223, 218, 218, 219, 227, 234, 236, 245, 250, 244, 243, 247, 248, 250, 259, 267, 271, 272, 279],
   [133, 138, 141, 147, 143, 140, 134, 142, 137, 132, 137, 143, 147, 154, 158, 163, 164, 171, 171, 165, 171, 178, 180, 182, 188, 196, 200, 199, 206, 212, 219, 227, 224, 227, 226, 235, 239, 238, 246, 253, 252, 252, 254, 249, 257, 258, 264, 267, 276, 284],
   [138, 144, 145, 149, 146, 147, 141, 146, 138, 136, 142, 149, 152, 157, 161, 169, 172, 180, 173, 170, 177, 185, 186, 188, 193, 202, 209, 200, 204, 210, 218, 227, 231, 234, 232, 233, 234, 236, 241, 248, 257, 253, 261, 257, 264, 260, 262, 265, 271, 279],
   [143, 148, 146, 153, 148, 155, 146, 148, 146, 142, 148, 154, 154, 162, 164, 165, 171, 174, 182, 177, 184, 191, 189, 197, 197, 199, 206, 204, 205, 213, 221, 229, 233, 234, 237, 236, 242, 241, 243, 252, 261, 262, 264, 259, 265, 264, 271, 271, 274, 275],
   [148, 155, 149, 154, 155, 155, 153, 149, 148, 148, 154, 162, 158, 164, 172, 168, 176, 176, 179, 184, 191, 200, 194, 201, 206, 203, 212, 207, 209, 217, 225, 226, 232, 240, 238, 241, 242, 245, 248, 257, 266, 264, 271, 268, 267, 270, 272, 276, 280, 276],
   [154, 159, 156, 155, 164, 160, 158, 156, 154, 151, 158, 164, 166, 166, 167, 173, 179, 184, 186, 188, 196, 203, 203, 204, 206, 210, 217, 216, 217, 222, 231, 234, 233, 237, 240, 248, 250, 246, 255, 261, 262, 271, 273, 273, 271, 279, 281, 278, 279, 283],
   [161, 160, 160, 163, 167, 167, 163, 164, 155, 155, 163, 165, 170, 175, 172, 180, 185, 185, 187, 192, 201, 204, 209, 205, 211, 219, 224, 218, 220, 226, 227, 231, 238, 239, 246, 247, 255, 249, 253, 260, 262, 267, 275, 276, 279, 281, 290, 282, 284, 291],
   [163, 168, 161, 168, 175, 170, 165, 165, 160, 160, 163, 172, 172, 180, 181, 186, 188, 191, 193, 198, 202, 203, 206, 214, 212, 219, 223, 225, 227, 233, 232, 233, 237, 238, 240, 248, 253, 257, 261, 268, 268, 270, 275, 277, 280, 289, 295, 291, 293, 300],
   [168, 173, 166, 170, 175, 174, 168, 170, 167, 162, 168, 176, 178, 183, 187, 193, 192, 197, 201, 201, 208, 212, 213, 219, 219, 227, 228, 232, 236, 237, 240, 234, 242, 245, 248, 257, 259, 265, 262, 267, 276, 272, 281, 285, 289, 290, 297, 300, 295, 301],
   [173, 180, 175, 174, 178, 179, 174, 178, 173, 167, 173, 181, 179, 184, 189, 195, 199, 206, 208, 207, 214, 221, 215, 221, 225, 232, 236, 233, 241, 244, 243, 235, 238, 245, 252, 260, 268, 267, 271, 275, 283, 274, 278, 286, 294, 296, 297, 299, 296, 305],
   [180, 185, 181, 183, 186, 185, 179, 179, 178, 171, 179, 185, 186, 185, 194, 201, 205, 207, 215, 212, 221, 228, 223, 223, 224, 232, 239, 236, 245, 250, 244, 243, 247, 248, 250, 259, 267, 271, 272, 279, 281, 283, 279, 283, 286, 287, 296, 301, 298, 306],
   [185, 191, 185, 190, 191, 189, 182, 188, 182, 176, 182, 189, 191, 193, 199, 207, 209, 208, 215, 218, 225, 233, 229, 232, 231, 240, 243, 238, 246, 253, 252, 252, 254, 249, 257, 258, 264, 267, 276, 284, 289, 283, 287, 285, 294, 289, 296, 300, 299, 308],
   [191, 197, 190, 195, 195, 197, 190, 193, 184, 181, 188, 196, 197, 199, 204, 213, 218, 209, 213, 219, 227, 236, 236, 239, 237, 238, 239, 240, 245, 252, 261, 253, 261, 257, 264, 260, 262, 265, 271, 279, 280, 282, 291, 294, 300, 292, 295, 299, 306, 315]]

theorem exRow1_0 : certRow 10 10 (costFn exampleBoard) exTable1 0 = true := by decide

theorem exRow1_1 : certRow 10 10 (costFn exampleBoard) exTable1 1 = true := by decide

theorem exRow1_2 : certRow 10 10 (costFn exampleBoard) exTable1 2 = true := by decide

theorem exRow1_3 : certRow 10 10 (costFn exampleBoard) exTable1 3 = true := by decide

theorem exRow1_4 : certRow 10 10 (costFn exampleBoard) exTable1 4 = true := by decide

theorem exRow1_5 : certRow 10 10 (costFn exampleBoard) exTable1 5 = true := by decide

theorem exRow1_6 : certRow 10 10 (costFn exampleBoard) exTable1 6 = true := by decide

theorem exRow1_7 : certRow 10 10 (costFn exampleBoard) exTable1 7 = true := by decide

theorem exRow1_8 : certRow 10 10 (costFn exampleBoard) exTable1 8 = true := by decide

theorem exRow1_9 : certRow 10 10 (costFn exampleBoard) exTable1 9 = true := by decide

set_option maxHeartbeats 1000000 in
theorem exRow5_0 : certRow 50 50 (costFn5 exampleBoard) exTable5 0 = true := by decide

set_option maxHeartbeats 1000000 in
theorem exRow5_1 : certRow 50 50 (costFn5 exampleBoard) exTable5 1 = true := by decide

set_option maxHeartbeats 1000000 in
theorem exRow5_2 : certRow 50 50 (costFn5 exampleBoard) exTable5 2 = true := by decide

set_option maxHeartbeats 1000000 in
theorem exRow5_3 : certRow 50 50 (costFn5 exampleBoard) exTable5 3 = true := by decide

set_option maxHeartbeats 1000000 in
theorem exRow5_4 : certRow 50 50 (costFn5 exampleBoard) exTable5 4 = true := by decide

set_option maxHeartbeats 1000000 in
theorem exRow5_5 : certRow 50 50 (costFn5 exampleBoard) exTable5 5 = true := by decide

set_option maxHeartbeats 1000000 in
theorem exRow5_6 : certRow 50 50 (costFn5 exampleBoard) exTable5 6 = true := by decide

set_option maxHeartbeats 1000000 in
theorem exRow5_7 : certRow 50 50 (costFn5 exampleBoard) exTable5 7 = true := by decide

set_option maxHeartbeats 1000000 in
theorem exRow5_8 : certRow 50 50 (costFn5 exampleBoard) exTable5 8 = true := by decide

set_option maxHeartbeats 1000000 in
theorem exRow5_9 : certRow 50 50 (costFn5 exampleBoard) exTable5 9 = true := by decide

set_option maxHeartbeats 1000000 in
theorem exRow5_10 : certRow 50 50 (costFn5 exampleBoard) exTable5 10 = true := by decide

set_option maxHeartbeats 1000000 in
theorem exRow5_11 : certRow 50 50 (costFn5 exampleBoard) exTable5 11 = true := by decide

set_option maxHeartbeats 1000000 in
theorem exRow5_12 : certRow 50 50 (costFn5 exampleBoard) exTable5 12 = true := by decide

set_option maxHeartbeats 1000000 in
theorem exRow5_13 : certRow 50 50 (costFn5 exampleBoard) exTable5 13 = true := by decide

set_option maxHeartbeats 1000000 in
theorem exRow5_14 : certRow 50 50 (costFn5 exampleBoard) exTable5 14 = true := by decide

set_option maxHeartbeats 1000000 in
theorem exRow5_15 : certRow 50 50 (costFn5 exampleBoard) exTable5 15 = true := by decide

set_option maxHeartbeats 1000000 in
theorem exRow5_16 : certRow 50 50 (costFn5 exampleBoard) exTable5 16 = true := by decide

set_option maxHeartbeats 1000000 in
theorem exRow5_17 : certRow 50 50 (costFn5 exampleBoard) exTable5 17 = true := by decide

set_option maxHeartbeats 1000000 in
theorem exRow5_18 : certRow 50 50 (costFn5 exampleBoard) exTable5 18 = true := by decide

set_option maxHeartbeats 1000000 in
theorem exRow5_19 : certRow 50 50 (costFn5 exampleBoard) exTable5 19 = true := by decide

set_option maxHeartbeats 1000000 in
theorem exRow5_20 : certRow 50 50 (costFn5 exampleBoard) exTable5 20 = true := by decide

set_option maxHeartbeats 1000000 in
theorem exRow5_21 : certRow 50 50 (costFn5 exampleBoard) exTable5 21 = true := by decide

set_option maxHeartbeats 1000000 in
theorem exRow5_22 : certRow 50 50 (costFn5 exampleBoard) exTable5 22 = true := by decide

set_option maxHeartbeats 1000000 in
theorem exRow5_23 : certRow 50 50 (costFn5 exampleBoard) exTable5 23 = true := by decide

set_option maxHeartbeats 1000000 in
theorem exRow5_24 : certRow 50 50 (costFn5 exampleBoard) exTable5 24 = true := by decide

set_option maxHeartbeats 1000000 in
theorem exRow5_25 : certRow 50 50 (costFn5 exampleBoard) exTable5 25 = true := by decide

set_option maxHeartbeats 1000000 in
theorem exRow5_26 : certRow 50 50 (costFn5 exampleBoard) exTable5 26 = true := by decide

set_option maxHeartbeats 1000000 in
theorem exRow5_27 : certRow 50 50 (costFn5 exampleBoard) exTable5 27 = true := by decide

set_option maxHeartbeats 1000000 in
theorem exRow5_28 : certRow 50 50 (costFn5 exampleBoard) exTable5 28 = true := by decide

set_option maxHeartbeats 1000000 in
theorem exRow5_29 : certRow 50 50 (costFn5 exampleBoard) exTable5 29 = true := by decide

set_option maxHeartbeats 1000000 in
theorem exRow5_30 : certRow 50 50 (costFn5 exampleBoard) exTable5 30 = true := by decide

set_option maxHeartbeats 1000000 in
theorem exRow5_31 : certRow 50 50 (costFn5 exampleBoard) exTable5 31 = true := by decide

set_option maxHeartbeats 1000000 in
theorem exRow5_32 : certRow 50 50 (costFn5 exampleBoard) exTable5 32 = true := by decide

set_option maxHeartbeats 1000000 in
theorem exRow5_33 : certRow 50 50 (costFn5 exampleBoard) exTable5 33 = true := by decide

set_option maxHeartbeats 1000000 in
theorem exRow5_34 : certRow 50 50 (costFn5 exampleBoard) exTable5 34 = true := by decide

set_option maxHeartbeats 1000000 in
theorem exRow5_35 : certRow 50 50 (costFn5 exampleBoard) exTable5 35 = true := by decide

set_option maxHeartbeats 1000000 in
theorem exRow5_36 : certRow 50 50 (costFn5 exampleBoard) exTable5 36 = true := by decide

set_option maxHeartbeats 1000000 in
theorem exRow5_37 : certRow 50 50 (costFn5 exampleBoard) exTable5 37 = true := by decide

set_option maxHeartbeats 1000000 in
theorem exRow5_38 : certRow 50 50 (costFn5 exampleBoard) exTable5 38 = true := by decide

set_option maxHeartbeats 1000000 in
theorem exRow5_39 : certRow 50 50 (costFn5 exampleBoard) exTable5 39 = true := by decide

set_option maxHeartbeats 1000000 in
theorem exRow5_40 : certRow 50 50 (costFn5 exampleBoard) exTable5 40 = true := by decide

set_option maxHeartbeats 1000000 in
theorem exRow5_41 : certRow 50 50 (costFn5 exampleBoard) exTable5 41 = true := by decide

set_option maxHeartbeats 1000000 in
theorem exRow5_42 : certRow 50 50 (costFn5 exampleBoard) exTable5 42 = true := by decide

set_option maxHeartbeats 1000000 in
theorem exRow5_43 : certRow 50 50 (costFn5 exampleBoard) exTable5 43 = true := by decide

set_option maxHeartbeats 1000000 in
theorem exRow5_44 : certRow 50 50 (costFn5 exampleBoard) exTable5 44 = true := by decide

set_option maxHeartbeats 1000000 in
theorem exRow5_45 : certRow 50 50 (costFn5 exampleBoard) exTable5 45 = true := by decide

set_option maxHeartbeats 1000000 in
theorem exRow5_46 : certRow 50 50 (costFn5 exampleBoard) exTable5 46 = true := by decide

set_option maxHeartbeats 1000000 in
theorem exRow5_47 : certRow 50 50 (costFn5 exampleBoard) exTable5 47 = true := by decide

set_option maxHeartbeats 1000000 in
theorem exRow5_48 : certRow 50 50 (costFn5 exampleBoard) exTable5 48 = true := by decide

set_option maxHeartbeats 1000000 in
theorem exRow5_49 : certRow 50 50 (costFn5 exampleBoard) exTable5 49 = true := by decide

set_option maxRecDepth 100000 in
/-- C2: on the ten-by-ten example grid of the source test, the plain
search returns 40 and the quintupled search returns 315. -/
theorem example_board_risks :
    IsLowestRisk exampleBoard 40 ∧ IsLowestRiskQ exampleBoard 315 := by
  constructor
  · refine ⟨⟨exPath1, by decide, by decide⟩, ?_⟩
    have h999 : ∀ p : State,
        (p.1 < 0 ∨ (10:ℤ) ≤ p.1 ∨ p.2 < 0 ∨ (10:ℤ) ≤ p.2) →
        costFn exampleBoard p = 999 := by
      intro p hp
      apply costFn_oob
      have hw : width exampleBoard = 10 := by decide
      have hh : height exampleBoard = 10 := by decide
      rw [hw, hh]
      exact hp
    have hchk : ∀ j, j < (10:ℤ).toNat →
        certRow 10 10 (costFn exampleBoard) exTable1 j = true := by
      intro j hj
      have hj2 : j < 10 := by omega
      clear hj
      interval_cases j
      exacts [exRow1_0, exRow1_1, exRow1_2, exRow1_3, exRow1_4, exRow1_5, exRow1_6, exRow1_7, exRow1_8, exRow1_9]
    exact cert_lower h999 (costFn_nonneg exampleBoard) hchk (by decide)
      (by decide)
  · refine ⟨⟨exPath5, by decide, by decide⟩, ?_⟩
    have h999 : ∀ p : State,
        (p.1 < 0 ∨ (50:ℤ) ≤ p.1 ∨ p.2 < 0 ∨ (50:ℤ) ≤ p.2) →
        costFn5 exampleBoard p = 999 := by
      intro p hp
      apply costFn5_oob
      have hw : width5 exampleBoard = 50 := by decide
      have hh : height5 exampleBoard = 50 := by decide
      rw [hw, hh]
      exact hp
    have hchk : ∀ j, j < (50:ℤ).toNat →
        certRow 50 50 (costFn5 exampleBoard) exTable5 j = true := by
      intro j hj
      have hj2 : j < 50 := by omega
      clear hj
      interval_cases j
      exacts [exRow5_0, exRow5_1, exRow5_2, exRow5_3, exRow5_4, exRow5_5, exRow5_6, exRow5_7, exRow5_8, exRow5_9, exRow5_10, exRow5_11, exRow5_12, exRow5_13, exRow5_14, exRow5_15, exRow5_16, exRow5_17, exRow5_18, exRow5_19, exRow5_20, exRow5_21, exRow5_22, exRow5_23, exRow5_24, exRow5_25, exRow5_26, exRow5_27, exRow5_28, exRow5_29, exRow5_30, exRow5_31, exRow5_32, exRow5_33, exRow5_34, exRow5_35, exRow5_36, exRow5_37, exRow5_38, exRow5_39, exRow5_40, exRow5_41, exRow5_42, exRow5_43, exRow5_44, exRow5_45, exRow5_46, exRow5_47, exRow5_48, exRow5_49]
    exact cert_lower h999 (costFn5_nonneg exampleBoard) hchk (by decide)
      (by decide)

/-! ## Cell-value lemmas -/

theorem getD_elem {α : Type} (l : List α) (d : α) {n : ℕ}
    (h : n < l.length) : l.getD n d = l[n] := by
  simp [List.getD_eq_getElem?_getD, List.getElem?_eq_getElem h]

/-- An in-bounds lookup hits an actual cell of the board. -/
theorem at_mem {b : Board} {x y : ℤ} (hwf : WF b)
    (hx : 0 ≤ x) (hxW : x < width b) (hy : 0 ≤ y) (hyH : y < height b) :
    ∃ row ∈ b.positions, ∃ v ∈ row, at_ b x y = (v : ℤ) := by
  obtain ⟨hne, hw0, hrect⟩ := hwf
  have hiy : y.toNat < b.positions.length := by
    unfold height at hyH
    omega
  have hrowD : b.positions.getD y.toNat [] = b.positions[y.toNat] :=
    getD_elem _ _ hiy
  have hrowmem : b.positions[y.toNat] ∈ b.positions := List.getElem_mem hiy
  have hlen : (b.positions[y.toNat]).length =
      (b.positions.headD []).length := hrect _ hrowmem
  have hix : x.toNat < (b.positions[y.toNat]).length := by
    unfold width at hxW
    omega
  have hcellD : (b.positions[y.toNat]).getD x.toNat 0 =
      (b.positions[y.toNat])[x.toNat] := getD_elem _ _ hix
  refine ⟨_, hrowmem, _, List.getElem_mem hix, ?_⟩
  unfold at_
  rw [hrowD, hcellD]

theorem at_le {b : Board} {x y : ℤ} {B : ℕ} (hwf : WF b)
    (hle : CellsLE b B)
    (hx : 0 ≤ x) (hxW : x < width b) (hy : 0 ≤ y) (hyH : y < height b) :
    at_ b x y ≤ (B : ℤ) := by
  obtain ⟨row, hrow, v, hv, heq⟩ := at_mem hwf hx hxW hy hyH
  rw [heq]
  exact_mod_cast hle row hrow v hv

theorem at_pos {b : Board} {x y : ℤ} (hwf : WF b) (hpos : CellsPos b)
    (hx : 0 ≤ x) (hxW : x < width b) (hy : 0 ≤ y) (hyH : y < height b) :
    1 ≤ at_ b x y := by
  obtain ⟨row, hrow, v, hv, heq⟩ := at_mem hwf hx hxW hy hyH
  rw [heq]
  exact_mod_cast hpos row hrow v hv

/-- Small boards used as concrete instances. -/
def smallBoard : Board := ⟨[[1, 2], [3, 4]]⟩

def zeroBoard : Board := ⟨[[0]]⟩

/-! ## C3: the heuristic -/

/-- C3 counterexample: at the goal cell (9,9) of the example board the
heuristic handed to astar is 2, while the Manhattan distance from the
goal to itself is 0, so the heuristic is not the Manhattan distance
and is nonzero at the goal. -/
theorem heuristic_at_goal_not_manhattan :
    heuristic exampleBoard 9 9 = 2 ∧
      ((width exampleBoard - 1) - 9) + ((height exampleBoard - 1) - 9)
        = 0 := by
  decide

/-- C3 amended: the heuristic equals the Manhattan distance to the
goal plus the constant 2, for every coordinate (in particular it is 2,
not 0, at the goal); the uniform offset leaves the ordering of
estimates unchanged. -/
theorem heuristic_eq_manhattan_add_two (b : Board) (x y : ℤ) :
    heuristic b x y =
      (((width b - 1) - x) + ((height b - 1) - y)) + 2 := by
  unfold heuristic
  ring

/-! ## C4: out-of-bounds successors -/

/-- C4 counterexample: the successor list of the start cell of the
example board contains the out-of-bounds coordinate (0,-1), paired
with the artificial cost 999 — out-of-bounds moves are not filtered
out. -/
theorem successors_include_oob :
    ((0, -1), 999) ∈ successors exampleBoard (0, 0) := by
  decide

/-- C4 amended: every out-of-bounds candidate move appears in the
successor list with the artificial cost 999 instead of being
filtered. -/
theorem successors_oob_cost_999 (b : Board) (p q : State)
    (hq : q ∈ step p) (hoob : is_oob b q.1 q.2 = true) :
    (q, 999) ∈ successors b p := by
  unfold successors
  refine List.mem_map.mpr ⟨q, hq, ?_⟩
  simp [cost_to, hoob]

theorem successors_oob_cost_999_witness :
    ((5, -1), 999) ∈ successors smallBoard (5, 0) :=
  successors_oob_cost_999 smallBoard (5, 0) (5, -1) (by decide) (by decide)

/-! ## C5: the tiled cost rule -/

/-- The tiled cell value, written with the base-board accessors. -/
theorem at5_eq (b : Board) (x y : ℤ) :
    at5_ b x y =
      if at_ b (x % width b) (y % height b) + x / width b + y / height b
          > 9
      then at_ b (x % width b) (y % height b) + x / width b + y / height b
          - 9
      else at_ b (x % width b) (y % height b) + x / width b
          + y / height b := by
  rfl

theorem width5_eq (b : Board) : width5 b = width b * 5 := by
  unfold width5 width
  push_cast
  ring

theorem height5_eq (b : Board) : height5 b = height b * 5 := by
  unfold height5 height
  push_cast
  ring

/-- C5 counterexample: on a board whose single cell is 0 the tiled
cost at the in-bounds tiled coordinate (0,0) is 0, outside the claimed
range of one to nine, and differs from the claimed formula, whose
value is 9 there. -/
theorem tiled_cost_zero_cell :
    is_oob5 zeroBoard 0 0 = false ∧ at5_ zeroBoard 0 0 = 0 ∧
      ¬ (1 ≤ at5_ zeroBoard 0 0) ∧ ((0 + 0 + 0 - 1) % 9 + 1 : ℤ) = 9 := by
  decide

/-- C5 amended: at every in-bounds tiled coordinate whose base cell
lies in the range one to nine, the effective tiled cost equals
((base_cost + tile_x + tile_y - 1) mod 9) + 1 and lies in the range
one to nine; in particular a base cell of 9 with tile increment 1
yields 1.  A base cell of 0 at the origin tile yields 0, outside the
range. -/
theorem tiled_cost_formula (b : Board) (x y : ℤ) (hwf : WF b)
    (hb1 : 1 ≤ at_ b (x % width b) (y % height b))
    (hb9 : at_ b (x % width b) (y % height b) ≤ 9)
    (hin : is_oob5 b x y = false) :
    at5_ b x y =
        ((at_ b (x % width b) (y % height b) + x / width b
          + y / height b - 1) % 9) + 1 ∧
      1 ≤ at5_ b x y ∧ at5_ b x y ≤ 9 := by
  obtain ⟨hx, hxW, hy, hyH⟩ := is_oob5_eq_false_iff.mp hin
  rw [width5_eq] at hxW
  rw [height5_eq] at hyH
  have hW : 0 < width b := by
    have := hwf.2.1
    unfold width
    omega
  have hH : 0 < height b := by
    unfold height
    rcases hps : b.positions with _ | ⟨r, rs⟩
    · exact absurd hps hwf.1
    · simp
  have htx0 : 0 ≤ x / width b := Int.ediv_nonneg hx (le_of_lt hW)
  have htx4 : x / width b < 5 :=
    Int.ediv_lt_of_lt_mul hW (by linarith)
  have hty0 : 0 ≤ y / height b := Int.ediv_nonneg hy (le_of_lt hH)
  have hty4 : y / height b < 5 :=
    Int.ediv_lt_of_lt_mul hH (by linarith)
  rw [at5_eq]
  refine ⟨?_, ?_, ?_⟩ <;> split <;> omega

/-- A rectangular board with a 0 cell in one corner and in-range
cells elsewhere; the formula applies at coordinates whose base cell
is in range even though the board as a whole has a 0 cell. -/
def mixedBoard : Board := ⟨[[0, 9], [5, 7]]⟩

theorem tiled_cost_formula_witness :
    (1 ≤ at_ mixedBoard (3 % width mixedBoard) (0 % height mixedBoard) ∧
        is_oob5 mixedBoard 3 0 = false) ∧
      (at5_ mixedBoard 3 0 =
          ((at_ mixedBoard (3 % width mixedBoard)
            (0 % height mixedBoard) + 3 / width mixedBoard
            + 0 / height mixedBoard - 1) % 9) + 1 ∧
        1 ≤ at5_ mixedBoard 3 0 ∧ at5_ mixedBoard 3 0 ≤ 9) :=
  ⟨by decide,
    tiled_cost_formula mixedBoard 3 0 (by decide) (by decide)
      (by decide) (by decide)⟩

/-! ## Shared helper lemmas on well-formed boards -/

theorem width_pos {b : Board} (hwf : WF b) : 0 < width b := by
  have := hwf.2.1
  unfold width
  omega

theorem height_pos {b : Board} (hwf : WF b) : 0 < height b := by
  unfold height
  rcases hps : b.positions with _ | ⟨r, rs⟩
  · exact absurd hps hwf.1
  · simp

theorem costFn_one_le {b : Board} (hwf : WF b) (hpos : CellsPos b)
    (p : State) : 1 ≤ costFn b p := by
  unfold costFn cost_to
  rcases hob : is_oob b p.1 p.2 with _ | _
  · rw [if_neg (by simp [hob])]
    obtain ⟨hx, hxW, hy, hyH⟩ := is_oob_eq_false_iff.mp hob
    exact at_pos hwf hpos hx hxW hy hyH
  · rw [if_pos (by simp)]
    norm_num

theorem reach_nonneg {b : Board} {s t : State} {m : ℤ}
    (h : ReachCost (costFn b) s t m) : 0 ≤ m := by
  obtain ⟨l, _, rfl⟩ := h
  exact walkCost_nonneg (costFn_nonneg b) l

/-- A one-by-one board: start equals goal and the minimum is 0,
whatever the cell value. -/
theorem one_by_one_min {b : Board} (_hwf : WF b)
    (hW : width b = 1) (hH : height b = 1) : IsLowestRisk b 0 := by
  constructor
  · refine ⟨[], ?_, rfl⟩
    show (0, 0) = goal b
    unfold goal
    rw [hW, hH]
    decide
  · exact fun m hm => reach_nonneg hm

/-! ## C6: behavior on the empty grid -/

/-- Possible outcomes of a call to lowest_total_risk: the function
returns a bare i32, so the only outcomes are a value or a panic; there
is no error-value channel. -/
inductive Outcome where
  | value (n : ℤ)
  | panics
deriving DecidableEq

/-- The empty board, parsed from an empty input. -/
def emptyBoard : Board := ⟨[]⟩

/-- The observable behavior of lowest_total_risk including its panic
case: on an empty board the width closure indexes row 0 of an empty
vector and panics before any search step; on a well-formed board the
astar call (modelled by IsLowestRisk) returns the minimum walk cost
and the unwrap succeeds. -/
def LowestRiskOutcome (b : Board) (o : Outcome) : Prop :=
  (b.positions = [] ∧ o = Outcome.panics) ∨
    (WF b ∧ ∃ n, IsLowestRisk b n ∧ o = Outcome.value n)

/-- C6 counterexample: on the empty grid the call panics; it does not
produce any returned value, let alone an explicit failure value. -/
theorem empty_board_outcome_panics :
    LowestRiskOutcome emptyBoard Outcome.panics ∧
      ¬ LowestRiskOutcome emptyBoard (Outcome.value 0) := by
  constructor
  · exact Or.inl ⟨rfl, rfl⟩
  · rintro (⟨_, h⟩ | ⟨hwf, _⟩)
    · exact Outcome.noConfusion h
    · exact hwf.1 rfl

/-- C6 amended: the only outcome of lowest_total_risk on the empty
grid is a panic (an out-of-bounds index in the width closure); the
function has no explicit failure value to report. -/
theorem empty_board_outcome_iff (o : Outcome) :
    LowestRiskOutcome emptyBoard o ↔ o = Outcome.panics := by
  constructor
  · rintro (⟨_, ho⟩ | ⟨hwf, _⟩)
    · exact ho
    · exact absurd rfl hwf.1
  · rintro rfl
    exact Or.inl ⟨rfl, rfl⟩

/-! ## C7: sign and zero of the minimum -/

/-- A one-row board with a zero cell behind the start. -/
def rowBoard : Board := ⟨[[5, 0]]⟩

/-- C7 counterexample: on the two-by-one board with cells 5 and 0 the
minimum is 0 although start and goal differ, because the entered cell
costs 0. -/
theorem zero_cell_zero_cost_off_goal :
    IsLowestRisk rowBoard 0 ∧
      ¬ (width rowBoard = 1 ∧ height rowBoard = 1) := by
  refine ⟨⟨⟨[(1, 0)], by decide, by decide⟩, fun m hm => reach_nonneg hm⟩,
    by decide⟩

/-- C7 amended: the minimum is never negative, for any board at all;
when every cell cost is at least 1 it is 0 exactly for the one-by-one
grid; and a one-by-one grid always yields 0 whatever its cell
value. -/
theorem lowest_risk_nonneg_zero_iff :
    (∀ (b : Board) (n : ℤ), IsLowestRisk b n → 0 ≤ n) ∧
      (∀ (b : Board) (n : ℤ), WF b → CellsPos b → IsLowestRisk b n →
        (n = 0 ↔ width b = 1 ∧ height b = 1)) ∧
      (∀ b : Board, WF b → width b = 1 → height b = 1 →
        IsLowestRisk b 0) := by
  refine ⟨?_, ?_, ?_⟩
  · intro b n h
    exact reach_nonneg h.1
  · intro b n hwf hpos h
    have hn0 : 0 ≤ n := reach_nonneg h.1
    constructor
    · intro hn
      by_contra hne
      obtain ⟨l, hw, hc⟩ := h.1
      rcases l with _ | ⟨q, l2⟩
      · have hgoal : (0, 0) = goal b := hw
        have hW := width_pos hwf
        have hH := height_pos hwf
        unfold goal at hgoal
        have h1 : (0 : ℤ) = width b - 1 := congrArg Prod.fst hgoal
        have h2 : (0 : ℤ) = height b - 1 := congrArg Prod.snd hgoal
        exact hne ⟨by omega, by omega⟩
      · obtain ⟨hadj, hw2⟩ := hw
        rw [walkCost_cons] at hc
        have h1 := costFn_one_le hwf hpos q
        have h2 := walkCost_nonneg (costFn_nonneg b) l2
        omega
    · rintro ⟨hW, hH⟩
      have ha := h.2 0 (one_by_one_min hwf hW hH).1
      omega
  · intro b hwf hW hH
    exact one_by_one_min hwf hW hH

/-- A one-by-one board with a positive cell. -/
def oneBoard : Board := ⟨[[3]]⟩

theorem lowest_risk_nonneg_zero_iff_witness :
    (0 ≤ (0 : ℤ)) ∧
      ((0 : ℤ) = 0 ↔ width oneBoard = 1 ∧ height oneBoard = 1) ∧
      IsLowestRisk oneBoard 0 := by
  have h0 : IsLowestRisk oneBoard 0 :=
    lowest_risk_nonneg_zero_iff.2.2 oneBoard (by decide) (by decide)
      (by decide)
  exact ⟨lowest_risk_nonneg_zero_iff.1 oneBoard 0 h0,
    lowest_risk_nonneg_zero_iff.2.1 oneBoard 0 (by decide) (by decide) h0,
    h0⟩

/-! ## C8: monotonicity under a single cell increase -/

/-- The board with the cell in column i of row j increased by d. -/
def bumpCell (b : Board) (i j : ℕ) (d : ℕ) : Board :=
  ⟨b.positions.set j ((b.positions.getD j []).set i
      ((b.positions.getD j []).getD i 0 + d))⟩

theorem getD_set_add_le (l : List ℕ) (i k d : ℕ) :
    l.getD k 0 ≤ (l.set i (l.getD i 0 + d)).getD k 0 := by
  rw [List.getD_eq_getElem?_getD, List.getD_eq_getElem?_getD,
    List.getElem?_set]
  by_cases h : i = k
  · subst h
    rw [if_pos rfl]
    by_cases hlen : i < l.length
    · rw [if_pos hlen]
      simp [List.getElem?_eq_getElem hlen]
    · rw [if_neg hlen, List.getElem?_eq_none (by omega)]
  · rw [if_neg h]

theorem bump_height (b : Board) (i j d : ℕ) :
    height (bumpCell b i j d) = height b := by
  unfold height bumpCell
  simp

theorem bump_width (b : Board) (i j d : ℕ) :
    width (bumpCell b i j d) = width b := by
  unfold width bumpCell
  rcases b.positions with _ | ⟨r, rs⟩
  · simp
  · rcases j with _ | j <;> simp

theorem getD2_set_le (ps : List (List ℕ)) (i j d kx ky : ℕ) :
    (ps.getD ky []).getD kx 0 ≤
      ((ps.set j ((ps.getD j []).set i
        ((ps.getD j []).getD i 0 + d))).getD ky []).getD kx 0 := by
  by_cases h : j = ky
  · subst h
    by_cases hlen : j < ps.length
    · rw [List.getD_eq_getElem?_getD (ps.set _ _), List.getElem?_set,
        if_pos rfl, if_pos hlen]
      simp only [Option.getD_some]
      exact getD_set_add_le _ i kx d
    · rw [List.set_eq_of_length_le (by omega)]
  · rw [List.getD_eq_getElem?_getD (ps.set _ _), List.getElem?_set,
      if_neg h, ← List.getD_eq_getElem?_getD]

theorem bump_at_le (b : Board) (i j d : ℕ) (x y : ℤ) :
    at_ b x y ≤ at_ (bumpCell b i j d) x y := by
  unfold at_ bumpCell
  dsimp only
  exact_mod_cast getD2_set_le b.positions i j d x.toNat y.toNat

theorem bump_costFn_le (b : Board) (i j d : ℕ) (p : State) :
    costFn b p ≤ costFn (bumpCell b i j d) p := by
  unfold costFn cost_to
  have hoob : is_oob (bumpCell b i j d) p.1 p.2 = is_oob b p.1 p.2 := by
    unfold is_oob
    rw [bump_width, bump_height]
  rw [hoob]
  split
  · exact le_refl _
  · exact bump_at_le b i j d p.1 p.2

/-- The five-by-five digit board on which the overestimating source
heuristic makes the search return the 4-cost shortcut although an
all-zero snake path to the goal exists. -/
def cexBoard : Board :=
  ⟨[[1, 0, 0, 0, 0],
    [9, 9, 9, 9, 0],
    [0, 0, 0, 0, 0],
    [0, 9, 9, 9, 4],
    [0, 0, 0, 0, 0]]⟩

/-- C8 counterexample: on cexBoard the search returns 4, and when the
cell in column 4 of row 3 is increased from 4 to 7 the search returns
0: increasing a single cell decreased the returned total. -/
theorem astar_run_bump_decreases :
    lowest_total_risk_run cexBoard 40 = some 4 ∧
      lowest_total_risk_run (bumpCell cexBoard 4 3 3) 40 = some 0 :=
  ⟨by decide, by decide⟩

/-- C8 amended: on boards whose cells are all at least 1 (where the
returned value is the minimum walk cost), increasing a single cell of
the board never decreases the returned total; on boards with 0-valued
cells the program itself violates monotonicity. -/
theorem lowest_risk_monotone_bump (b : Board) (i j d : ℕ) (n m : ℤ)
    (_hpos : CellsPos b)
    (h : IsLowestRisk b n) (h2 : IsLowestRisk (bumpCell b i j d) m) :
    n ≤ m := by
  obtain ⟨⟨l, hw, hc⟩, _⟩ := h2
  have hgoal : goal (bumpCell b i j d) = goal b := by
    unfold goal
    rw [bump_width, bump_height]
  rw [hgoal] at hw
  have h1 : n ≤ walkCost (costFn b) l := h.2 _ ⟨l, hw, rfl⟩
  have h3 : walkCost (costFn b) l ≤ walkCost (costFn (bumpCell b i j d)) l :=
    walkCost_mono (bump_costFn_le b i j d) l
  omega

theorem lowest_risk_monotone_bump_witness : (0 : ℤ) ≤ 0 :=
  lowest_risk_monotone_bump oneBoard 0 0 3 0 0 (by decide)
    (one_by_one_min (by decide) (by decide) (by decide))
    (one_by_one_min (by decide) (by decide) (by decide))

/-! ## Staircase paths and out-of-bounds counting -/

/-- In-bounds predicate for a W-by-H coordinate space. -/
def inb (W H : ℤ) (p : State) : Prop :=
  0 ≤ p.1 ∧ p.1 < W ∧ 0 ≤ p.2 ∧ p.2 < H

instance : ∀ W H p, Decidable (inb W H p) := fun W H p => by
  unfold inb
  infer_instance

/-- Number of out-of-bounds nodes entered along a walk. -/
def oobCount (W H : ℤ) (l : List State) : ℕ :=
  l.countP fun p => !decide (inb W H p)

/-- Manhattan distance between two coordinates. -/
def distL1 (p t : State) : ℕ :=
  (t.1 - p.1).natAbs + (t.2 - p.2).natAbs

/-- A monotone staircase walk from p to t: first align the x
coordinate, then the y coordinate. -/
def stair : ℕ → State → State → List State
  | 0, _, _ => []
  | n + 1, p, t =>
    if p.1 < t.1 then (p.1 + 1, p.2) :: stair n (p.1 + 1, p.2) t
    else if t.1 < p.1 then (p.1 - 1, p.2) :: stair n (p.1 - 1, p.2) t
    else if p.2 < t.2 then (p.1, p.2 + 1) :: stair n (p.1, p.2 + 1) t
    else if t.2 < p.2 then (p.1, p.2 - 1) :: stair n (p.1, p.2 - 1) t
    else []

theorem distL1_eq_zero {p t : State} (h : distL1 p t = 0) : p = t := by
  unfold distL1 at h
  have h1 : p.1 = t.1 := by omega
  have h2 : p.2 = t.2 := by omega
  exact Prod.ext h1 h2

theorem stair_spec : ∀ (n : ℕ) (p t : State), distL1 p t ≤ n →
    IsWalk p (stair n p t) t ∧ (stair n p t).length = distL1 p t ∧
      ∀ q ∈ stair n p t,
        min p.1 t.1 ≤ q.1 ∧ q.1 ≤ max p.1 t.1 ∧
          min p.2 t.2 ≤ q.2 ∧ q.2 ≤ max p.2 t.2 := by
  intro n
  induction n with
  | zero =>
    intro p t h
    have hpt : p = t := distL1_eq_zero (by omega)
    subst hpt
    exact ⟨rfl, by unfold distL1; simp [stair], by simp [stair]⟩
  | succ n ih =>
    intro p t h
    simp only [stair]
    split_ifs with h1 h2 h3 h4
    · obtain ⟨hw, hlen, hbnd⟩ := ih (p.1 + 1, p.2) t
        (by unfold distL1 at h ⊢; omega)
      refine ⟨⟨by simp [step], hw⟩, ?_, ?_⟩
      · simp only [List.length_cons, hlen]
        unfold distL1
        omega
      · intro q hq
        rcases List.mem_cons.mp hq with rfl | hq2
        · dsimp only
          omega
        · have := hbnd q hq2
          dsimp only at this ⊢
          omega
    · obtain ⟨hw, hlen, hbnd⟩ := ih (p.1 - 1, p.2) t
        (by unfold distL1 at h ⊢; omega)
      refine ⟨⟨by simp [step], hw⟩, ?_, ?_⟩
      · simp only [List.length_cons, hlen]
        unfold distL1
        omega
      · intro q hq
        rcases List.mem_cons.mp hq with rfl | hq2
        · dsimp only
          omega
        · have := hbnd q hq2
          dsimp only at this ⊢
          omega
    · obtain ⟨hw, hlen, hbnd⟩ := ih (p.1, p.2 + 1) t
        (by unfold distL1 at h ⊢; omega)
      refine ⟨⟨by simp [step], hw⟩, ?_, ?_⟩
      · simp only [List.length_cons, hlen]
        unfold distL1
        omega
      · intro q hq
        rcases List.mem_cons.mp hq with rfl | hq2
        · dsimp only
          omega
        · have := hbnd q hq2
          dsimp only at this ⊢
          omega
    · obtain ⟨hw, hlen, hbnd⟩ := ih (p.1, p.2 - 1) t
        (by unfold distL1 at h ⊢; omega)
      refine ⟨⟨by simp [step], hw⟩, ?_, ?_⟩
      · simp only [List.length_cons, hlen]
        unfold distL1
        omega
      · intro q hq
        rcases List.mem_cons.mp hq with rfl | hq2
        · dsimp only
          omega
        · have := hbnd q hq2
          dsimp only at this ⊢
          omega
    · have hpt : p = t := by
        have : p.1 = t.1 := by omega
        have : p.2 = t.2 := by omega
        exact Prod.ext (by omega) (by omega)
      subst hpt
      exact ⟨rfl, by unfold distL1; simp, by simp⟩

/-- Any single step moves Manhattan distance exactly one. -/
theorem adj_dist {a q : State} (hq : q ∈ step a) : distL1 a q = 1 := by
  simp only [step, List.mem_cons, List.mem_singleton,
    List.not_mem_nil, or_false] at hq
  rcases hq with rfl | rfl | rfl | rfl <;> (unfold distL1; dsimp only; omega)

theorem walkCost_le_of_bound {c : State → ℤ} {B : ℤ} {l : List State}
    (h : ∀ q ∈ l, c q ≤ B) : walkCost c l ≤ B * l.length := by
  induction l with
  | nil => simp [walkCost]
  | cons q l2 ih =>
    rw [walkCost_cons]
    have h1 := h q (List.mem_cons_self q l2)
    have h2 := ih fun r hr => h r (List.mem_cons_of_mem q hr)
    simp only [List.length_cons]
    push_cast
    nlinarith

theorem walkCost_congr {c c2 : State → ℤ} {l : List State}
    (h : ∀ q ∈ l, c q = c2 q) : walkCost c l = walkCost c2 l := by
  induction l with
  | nil => rfl
  | cons q l2 ih =>
    rw [walkCost_cons, walkCost_cons,
      h q (List.mem_cons_self q l2),
      ih fun r hr => h r (List.mem_cons_of_mem q hr)]

/-! ## Removing out-of-bounds excursions from a walk -/

theorem oobCount_cons (W H : ℤ) (q : State) (l : List State) :
    oobCount W H (q :: l) =
      oobCount W H l + (if inb W H q then 0 else 1) := by
  unfold oobCount
  rw [List.countP_cons]
  by_cases hq : inb W H q <;> simp [hq]

theorem oobCount_append (W H : ℤ) (l1 l2 : List State) :
    oobCount W H (l1 ++ l2) = oobCount W H l1 + oobCount W H l2 := by
  unfold oobCount
  rw [List.countP_append]

/-- Splitting a walk that starts out of bounds at its first return
into the W-by-H rectangle: the prefix spends at least 999 per entered
node, and the re-entry point is within Manhattan distance m + 1 of the
starting node. -/
theorem walk_split (W H : ℤ) (c : State → ℤ)
    (hoob : ∀ p, ¬ inb W H p → c p = 999)
    (hnn : ∀ p, 0 ≤ c p) :
    ∀ (l : List State) (a t : State), IsWalk a l t → ¬ inb W H a →
      inb W H t →
      ∃ (B : State) (lB : List State) (m : ℕ),
        inb W H B ∧ IsWalk B lB t ∧ distL1 a B ≤ m + 1 ∧
          999 * (m : ℤ) + walkCost c lB ≤ walkCost c l ∧
          oobCount W H l = m + oobCount W H lB := by
  intro l
  induction l with
  | nil =>
    intro a t hw ha ht
    have hat : a = t := hw
    subst hat
    exact absurd ht ha
  | cons q l2 ih =>
    intro a t hw ha ht
    obtain ⟨hadj, hw2⟩ := hw
    by_cases hq : inb W H q
    · refine ⟨q, l2, 0, hq, hw2, ?_, ?_, ?_⟩
      · have := adj_dist hadj
        omega
      · rw [walkCost_cons]
        have := hnn q
        push_cast
        linarith
      · rw [oobCount_cons, if_pos hq]
        omega
    · obtain ⟨B, lB, m, hB, hwB, hdist, hcost, hcount⟩ :=
        ih q t hw2 hq ht
      refine ⟨B, lB, m + 1, hB, hwB, ?_, ?_, ?_⟩
      · have h1 := adj_dist hadj
        unfold distL1 at h1 hdist ⊢
        omega
      · rw [walkCost_cons, hoob q hq]
        push_cast
        linarith
      · rw [oobCount_cons, if_neg hq, hcount]
        omega

/-- Excursion removal: when out-of-bounds entries cost 999 and
in-bounds entries cost at most 499, every walk between in-bounds
endpoints can be replaced by an in-bounds walk that costs no more. -/
theorem walk_to_inbounds (W H : ℤ) (c : State → ℤ) (B9 : ℤ)
    (hoob : ∀ p, ¬ inb W H p → c p = 999)
    (hnn : ∀ p, 0 ≤ c p)
    (hbd : ∀ p, inb W H p → c p ≤ B9)
    (_hB9 : 0 ≤ B9) (hB9le : B9 ≤ 499) :
    ∀ (K : ℕ) (l : List State) (s t : State), oobCount W H l ≤ K →
      IsWalk s l t → inb W H s → inb W H t →
      ∃ l2, IsWalk s l2 t ∧ (∀ q ∈ l2, inb W H q) ∧
        walkCost c l2 ≤ walkCost c l := by
  intro K
  induction K using Nat.strong_induction_on with
  | _ K ihK =>
  intro l
  induction l with
  | nil =>
    intro s t _ hw _ _
    exact ⟨[], hw, by simp, le_refl _⟩
  | cons q l2 ihl =>
    intro s t hcnt hw hs ht
    obtain ⟨hadj, hw2⟩ := hw
    by_cases hq : inb W H q
    · have hcnt2 : oobCount W H l2 ≤ K := by
        rw [oobCount_cons, if_pos hq] at hcnt
        omega
      obtain ⟨l3, hw3, hin3, hc3⟩ := ihl q t hcnt2 hw2 hq ht
      refine ⟨q :: l3, ⟨hadj, hw3⟩, ?_, ?_⟩
      · intro r hr
        rcases List.mem_cons.mp hr with rfl | hr2
        · exact hq
        · exact hin3 r hr2
      · rw [walkCost_cons, walkCost_cons]
        linarith
    · obtain ⟨B, lB, m, hB, hwB, hdist, hcost, hcount⟩ :=
        walk_split W H c hoob hnn l2 q t hw2 hq ht
      obtain ⟨hwS, hlenS, hbndS⟩ := stair_spec (distL1 s B) s B (le_refl _)
      have hinS : ∀ r ∈ stair (distL1 s B) s B, inb W H r := by
        intro r hr
        have hbb := hbndS r hr
        obtain ⟨hs1, hs2, hs3, hs4⟩ := hs
        obtain ⟨hb1, hb2, hb3, hb4⟩ := hB
        unfold inb
        omega
      have hcS : walkCost c (stair (distL1 s B) s B) ≤
          B9 * (stair (distL1 s B) s B).length :=
        walkCost_le_of_bound fun r hr => hbd r (hinS r hr)
      have hdsB : distL1 s B ≤ m + 2 := by
        have h1 := adj_dist hadj
        unfold distL1 at h1 hdist ⊢
        omega
      have hw4 : IsWalk s (stair (distL1 s B) s B ++ lB) t :=
        IsWalk.append hwS hwB
      have hS0 : oobCount W H (stair (distL1 s B) s B) = 0 := by
        unfold oobCount
        rw [List.countP_eq_zero]
        intro a ha
        simp [hinS a ha]
      have hcnt4 : oobCount W H (stair (distL1 s B) s B ++ lB) < K := by
        rw [oobCount_append, hS0]
        rw [oobCount_cons, if_neg hq, hcount] at hcnt
        omega
      obtain ⟨l5, hw5, hin5, hc5⟩ :=
        ihK (oobCount W H (stair (distL1 s B) s B ++ lB)) hcnt4
          (stair (distL1 s B) s B ++ lB) s t (le_refl _) hw4 hs ht
      refine ⟨l5, hw5, hin5, ?_⟩
      have e1 : walkCost c (stair (distL1 s B) s B ++ lB) =
          walkCost c (stair (distL1 s B) s B) + walkCost c lB :=
        walkCost_append c _ _
      have e2 : walkCost c (q :: l2) = 999 + walkCost c l2 := by
        rw [walkCost_cons, hoob q hq]
      have hlen : ((stair (distL1 s B) s B).length : ℤ) ≤ (m : ℤ) + 2 := by
        rw [hlenS]
        exact_mod_cast hdsB
      have hstep : B9 * ((stair (distL1 s B) s B).length : ℤ) ≤
          999 * ((m : ℤ) + 1) := by
        have hnn0 : (0 : ℤ) ≤ ((stair (distL1 s B) s B).length : ℤ) := by
          positivity
        have hmul : B9 * ((stair (distL1 s B) s B).length : ℤ) ≤
            499 * ((m : ℤ) + 2) := by
          calc B9 * ((stair (distL1 s B) s B).length : ℤ)
              ≤ 499 * ((stair (distL1 s B) s B).length : ℤ) :=
                mul_le_mul_of_nonneg_right hB9le hnn0
            _ ≤ 499 * ((m : ℤ) + 2) := by linarith
        have hm0 : (0 : ℤ) ≤ (m : ℤ) := by positivity
        linarith
      linarith

/-! ## The filtered formulation (from the specification) -/

/-- Modelled from the spec: a path that stays strictly inside the
grid, whose cost is the sum of the values of the cells entered, the
start cell never being charged. -/
def FilteredReach (b : Board) (n : ℤ) : Prop :=
  ∃ l, IsWalk (0, 0) l (goal b) ∧
    (∀ q ∈ l, is_oob b q.1 q.2 = false) ∧
    walkCost (fun q => at_ b q.1 q.2) l = n

/-- Modelled from the spec: n is the minimum cost over in-bounds
paths from the top-left to the bottom-right cell. -/
def IsFilteredMin (b : Board) (n : ℤ) : Prop :=
  FilteredReach b n ∧ ∀ m, FilteredReach b m → n ≤ m

theorem inb_iff (b : Board) (q : State) :
    inb (width b) (height b) q ↔ is_oob b q.1 q.2 = false := by
  unfold inb
  exact is_oob_eq_false_iff.symm

theorem costFn_inb {b : Board} {q : State}
    (h : is_oob b q.1 q.2 = false) : costFn b q = at_ b q.1 q.2 := by
  unfold costFn cost_to
  simp [h]

theorem costFn_not_inb {b : Board} {p : State}
    (hp : ¬ inb (width b) (height b) p) : costFn b p = 999 := by
  have hob : is_oob b p.1 p.2 = true := by
    rw [inb_iff] at hp
    rcases hob : is_oob b p.1 p.2 with _ | _
    · exact absurd hob hp
    · rfl
  unfold costFn cost_to
  simp [hob]

/-- Excursion removal specialized to a board. -/
theorem board_surgery {b : Board} {B : ℕ} (hwf : WF b)
    (hle : CellsLE b B) (hB : B ≤ 499) :
    ∀ (l : List State) (t : State), IsWalk (0, 0) l t →
      inb (width b) (height b) t →
      ∃ l2, IsWalk (0, 0) l2 t ∧
        (∀ q ∈ l2, is_oob b q.1 q.2 = false) ∧
        walkCost (costFn b) l2 ≤ walkCost (costFn b) l := by
  intro l t hw ht
  have hstart : inb (width b) (height b) (0, 0) := by
    have h1 := width_pos hwf
    have h2 := height_pos hwf
    unfold inb
    constructor
    · norm_num
    · constructor
      · exact h1
      · norm_num
        exact h2
  obtain ⟨l2, hw2, hin2, hc2⟩ :=
    walk_to_inbounds (width b) (height b) (costFn b) (B : ℤ)
      (fun p hp => costFn_not_inb hp)
      (costFn_nonneg b)
      (fun p hp => by
        rw [inb_iff] at hp
        rw [costFn_inb hp]
        obtain ⟨hx, hxW, hy, hyH⟩ := is_oob_eq_false_iff.mp hp
        exact at_le hwf hle hx hxW hy hyH)
      (by positivity) (by exact_mod_cast hB)
      (oobCount (width b) (height b) l) l (0, 0) t (le_refl _) hw
      hstart ht
  exact ⟨l2, hw2, fun q hq => (inb_iff b q).mp (hin2 q hq), hc2⟩

/-- The central equivalence: for cell values up to 499 (in particular
for the u8 values of the source), the minimum over the 999-penalty
graph equals the minimum over strictly in-bounds paths. -/
theorem risk_filtered_aux {b : Board} {B : ℕ} (hwf : WF b)
    (hle : CellsLE b B) (hB : B ≤ 499) (n : ℤ) :
    IsLowestRisk b n ↔ IsFilteredMin b n := by
  have hgoal : inb (width b) (height b) (goal b) := by
    have h1 := width_pos hwf
    have h2 := height_pos hwf
    unfold inb goal
    refine ⟨by omega, by omega, by omega, by omega⟩
  constructor
  · rintro ⟨⟨l, hw, hc⟩, hmin⟩
    obtain ⟨l2, hw2, hin2, hc2⟩ :=
      board_surgery hwf hle hB l (goal b) hw hgoal
    have hcf : walkCost (costFn b) l2 =
        walkCost (fun q => at_ b q.1 q.2) l2 :=
      walkCost_congr fun q hq => costFn_inb (hin2 q hq)
    have hge : n ≤ walkCost (costFn b) l2 := hmin _ ⟨l2, hw2, rfl⟩
    have heq : walkCost (costFn b) l2 = n := by
      omega
    constructor
    · exact ⟨l2, hw2, hin2, by rw [← hcf, heq]⟩
    · rintro m ⟨l3, hw3, hin3, hc3⟩
      apply hmin
      refine ⟨l3, hw3, ?_⟩
      rw [walkCost_congr fun q hq => costFn_inb (hin3 q hq), hc3]
  · rintro ⟨⟨l, hw, hin, hc⟩, hmin⟩
    constructor
    · refine ⟨l, hw, ?_⟩
      rw [walkCost_congr fun q hq => costFn_inb (hin q hq), hc]
    · rintro m ⟨l3, hw3, hc3⟩
      obtain ⟨l4, hw4, hin4, hc4⟩ :=
        board_surgery hwf hle hB l3 (goal b) hw3 hgoal
      have h5 : n ≤ walkCost (fun q => at_ b q.1 q.2) l4 :=
        hmin _ ⟨l4, hw4, hin4, rfl⟩
      have hcf : walkCost (costFn b) l4 =
          walkCost (fun q => at_ b q.1 q.2) l4 :=
        walkCost_congr fun q hq => costFn_inb (hin4 q hq)
      omega

/-- The all-zero snake path through cexBoard, of total cost 0. -/
def snakePath : List State :=
  [(1, 0), (2, 0), (3, 0), (4, 0), (4, 1), (4, 2), (3, 2), (2, 2),
    (1, 2), (0, 2), (0, 3), (0, 4), (1, 4), (2, 4), (3, 4), (4, 4)]

/-- C1 counterexample: on cexBoard, a digit board with 0-valued
cells, the search returns 4 although the minimum over in-bounds paths
is 0 (the snake path costs 0): with the overestimating heuristic the
program does not return the path minimum on every non-negative
grid. -/
theorem astar_run_not_minimal :
    lowest_total_risk_run cexBoard 40 = some 4 ∧
      IsFilteredMin cexBoard 0 := by
  constructor
  · decide
  · constructor
    · exact ⟨snakePath, by decide, by decide, by decide⟩
    · rintro m ⟨l, _, _, rfl⟩
      exact walkCost_nonneg (fun p => at_nonneg cexBoard p.1 p.2) l

/-- C1 amended: for boards whose cells are all in the range one to
255 (the u8 bound; positivity is what makes the source heuristic
admissible up to its uniform shift, so the program returns the
modelled minimum), the value returned by lowest_total_risk is the
minimum, over in-bounds 4-connected paths from the top-left to the
bottom-right cell, of the sum of the values of the cells entered; the
start cell is never charged. -/
theorem lowest_risk_eq_filtered_min (b : Board) (n : ℤ) (hwf : WF b)
    (_hpos : CellsPos b) (hle : CellsLE b 255) :
    IsLowestRisk b n ↔ IsFilteredMin b n :=
  risk_filtered_aux hwf hle (by norm_num) n

theorem lowest_risk_eq_filtered_min_witness :
    IsLowestRisk smallBoard 5 ↔ IsFilteredMin smallBoard 5 :=
  lowest_risk_eq_filtered_min smallBoard 5 (by decide) (by decide)
    (by decide)

/-- C9: for digit-valued grids the 999-penalty formulation returns
exactly the filtered-successor minimum, and some optimal path stays
strictly inside the grid. -/
theorem penalty_formulation_equals_filtered (b : Board) (n : ℤ)
    (hwf : WF b) (hle : CellsLE b 9) (h : IsLowestRisk b n) :
    IsFilteredMin b n ∧
      ∃ l, IsWalk (0, 0) l (goal b) ∧
        (∀ q ∈ l, is_oob b q.1 q.2 = false) ∧
        walkCost (costFn b) l = n := by
  obtain ⟨⟨l, hw, hin, hc⟩, hmin⟩ :=
    (risk_filtered_aux hwf hle (by norm_num) n).mp h
  exact ⟨⟨⟨l, hw, hin, hc⟩, hmin⟩, l, hw, hin,
    by rw [walkCost_congr fun q hq => costFn_inb (hin q hq), hc]⟩

theorem penalty_formulation_equals_filtered_witness :
    IsFilteredMin oneBoard 0 ∧
      ∃ l, IsWalk (0, 0) l (goal oneBoard) ∧
        (∀ q ∈ l, is_oob oneBoard q.1 q.2 = false) ∧
        walkCost (costFn oneBoard) l = 0 :=
  penalty_formulation_equals_filtered oneBoard 0 (by decide) (by decide)
    (one_by_one_min (by decide) (by decide) (by decide))

/-! ## C10: the bounded-cost reachable region is finite -/

/-- Manhattan distance from a coordinate to the W-by-H rectangle. -/
def oobDepth (W H : ℤ) (p : State) : ℤ :=
  max 0 (max (-p.1) (p.1 - (W - 1))) + max 0 (max (-p.2) (p.2 - (H - 1)))

theorem oobDepth_nonneg (W H : ℤ) (p : State) : 0 ≤ oobDepth W H p := by
  unfold oobDepth
  omega

theorem oobDepth_pos_not_inb {W H : ℤ} {p : State}
    (h : 0 < oobDepth W H p) : ¬ inb W H p := by
  unfold oobDepth at h
  unfold inb
  omega

theorem oobDepth_step {p q : State} (hq : q ∈ step p) (W H : ℤ) :
    oobDepth W H q ≤ oobDepth W H p + 1 := by
  simp only [step, List.mem_cons, List.mem_singleton,
    List.not_mem_nil, or_false] at hq
  unfold oobDepth
  rcases hq with rfl | rfl | rfl | rfl <;> (dsimp only; omega)

/-- Walks pay at least 999 per unit of depth: the walk cost bounds how
far outside the rectangle a walk can end. -/
theorem depth_le_cost (W H : ℤ) (c : State → ℤ)
    (hoob : ∀ p, ¬ inb W H p → c p = 999)
    (hnn : ∀ p, 0 ≤ c p) :
    ∀ (l : List State) (s t : State), IsWalk s l t →
      999 * oobDepth W H t ≤ 999 * oobDepth W H s + walkCost c l := by
  intro l
  induction l with
  | nil =>
    intro s t hw
    have hst : s = t := hw
    subst hst
    simp [walkCost]
  | cons q l2 ih =>
    intro s t hw
    obtain ⟨hadj, hw2⟩ := hw
    have h1 := ih q t hw2
    rw [walkCost_cons]
    have h2 : 999 * oobDepth W H q ≤ 999 * oobDepth W H s + c q := by
      rcases lt_or_le 0 (oobDepth W H q) with hd | hd
      · have h3 := hoob q (oobDepth_pos_not_inb hd)
        have h4 := oobDepth_step hadj W H
        rw [h3]
        linarith
      · have h5 := oobDepth_nonneg W H q
        have h6 := oobDepth_nonneg W H s
        have h7 := hnn q
        linarith
    linarith

/-- The set of nodes reachable within any fixed cost budget is finite:
every out-of-bounds step costs 999, so a bounded-cost walk stays in a
bounded box. -/
theorem reachable_finite (W H : ℤ) (c : State → ℤ)
    (hoob : ∀ p, ¬ inb W H p → c p = 999)
    (hnn : ∀ p, 0 ≤ c p) (hW : 0 < W) (hH : 0 < H) (C : ℤ) :
    Set.Finite {p : State |
      ∃ l, IsWalk (0, 0) l p ∧ walkCost c l ≤ C} := by
  refine Set.Finite.subset
    (Set.Finite.prod (Set.finite_Icc (-C) (W - 1 + C))
      (Set.finite_Icc (-C) (H - 1 + C))) ?_
  rintro p ⟨l, hw, hc⟩
  have h1 := depth_le_cost W H c hoob hnn l (0, 0) p hw
  have h2 : oobDepth W H (0, 0) = 0 := by
    unfold oobDepth
    dsimp only
    omega
  have h3 := oobDepth_nonneg W H p
  have h4 : oobDepth W H p ≤ C := by
    rw [h2] at h1
    have h5 := walkCost_nonneg hnn l
    omega
  constructor
  · simp only [Set.mem_Icc]
    unfold oobDepth at h3 h4
    omega
  · simp only [Set.mem_Icc]
    unfold oobDepth at h3 h4
    omega

/-- Any target is reachable by some walk (a staircase). -/
theorem reach_exists (t : State) : ∃ l, IsWalk (0, 0) l t :=
  ⟨stair (distL1 (0, 0) t) (0, 0) t,
    (stair_spec (distL1 (0, 0) t) (0, 0) t (le_refl _)).1⟩

/-- The minimum walk cost to any target exists when costs are
nonnegative. -/
theorem min_exists (c : State → ℤ) (t : State) (hnn : ∀ p, 0 ≤ c p) :
    ∃ n, IsMinCost c (0, 0) t n := by
  obtain ⟨l0, hl0⟩ := reach_exists t
  obtain ⟨lb, hlb, hmin⟩ :=
    @Int.exists_least_of_bdd (fun n => ReachCost c (0, 0) t n)
      ⟨0, fun z hz => by
        obtain ⟨l, _, rfl⟩ := hz
        exact walkCost_nonneg hnn l⟩
      ⟨walkCost c l0, l0, hl0, rfl⟩
  exact ⟨lb, hlb, hmin⟩

theorem costFn5_not_inb {b : Board} {p : State}
    (hp : ¬ inb (width5 b) (height5 b) p) : costFn5 b p = 999 := by
  have hob : is_oob5 b p.1 p.2 = true := by
    rcases hob : is_oob5 b p.1 p.2 with _ | _
    · obtain ⟨hx, hxW, hy, hyH⟩ := is_oob5_eq_false_iff.mp hob
      exact absurd ⟨hx, hxW, hy, hyH⟩ hp
    · rfl
  unfold costFn5 cost_to5
  simp [hob]

/-- C10: on every well-formed board both searches have a minimum
(astar terminates with a value), and for every cost budget only
finitely many nodes of the infinite successor graph are reachable
within that budget, because each out-of-bounds step costs 999. -/
theorem searches_terminate (b : Board) (hwf : WF b) :
    ((∃ n, IsLowestRisk b n) ∧ ∀ C : ℤ, Set.Finite {p : State |
        ∃ l, IsWalk (0, 0) l p ∧ walkCost (costFn b) l ≤ C}) ∧
      ((∃ n, IsLowestRiskQ b n) ∧ ∀ C : ℤ, Set.Finite {p : State |
        ∃ l, IsWalk (0, 0) l p ∧ walkCost (costFn5 b) l ≤ C}) := by
  have hW := width_pos hwf
  have hH := height_pos hwf
  have hW5 : 0 < width5 b := by
    rw [width5_eq]
    omega
  have hH5 : 0 < height5 b := by
    rw [height5_eq]
    omega
  refine ⟨⟨min_exists _ _ (costFn_nonneg b), fun C => ?_⟩,
    ⟨min_exists _ _ (costFn5_nonneg b), fun C => ?_⟩⟩
  · exact reachable_finite (width b) (height b) (costFn b)
      (fun p hp => costFn_not_inb hp) (costFn_nonneg b) hW hH C
  · exact reachable_finite (width5 b) (height5 b) (costFn5 b)
      (fun p hp => costFn5_not_inb hp) (costFn5_nonneg b) hW5 hH5 C

theorem searches_terminate_witness :
    ((∃ n, IsLowestRisk smallBoard n) ∧ ∀ C : ℤ, Set.Finite {p : State |
        ∃ l, IsWalk (0, 0) l p ∧ walkCost (costFn smallBoard) l ≤ C}) ∧
      ((∃ n, IsLowestRiskQ smallBoard n) ∧
        ∀ C : ℤ, Set.Finite {p : State |
          ∃ l, IsWalk (0, 0) l p ∧
            walkCost (costFn5 smallBoard) l ≤ C}) :=
  searches_terminate smallBoard (by decide)

end Day15
